
import Mathlib

/-!
# SDP offer/answer negotiation of the RTP/AVP media handler

A shallow embedding of `kmssdprtpavpmediahandler.c`.

* A C string is a `String`; a `gchar *` that may be `NULL` is an `Option String`.
* A function that returns `gboolean`, writes a `GstSDPMedia` and may set `*error`
  is a function to `Ret`: the return value, the media and the error slot after
  the call.
* A call through the class table (`KMS_SDP_MEDIA_HANDLER_GET_CLASS (handler)->f`)
  is a call of the function `class_init` installs for `f`; the methods of
  `parent_class` and the helper `sdp_utils_intersect_media_attributes`, whose code
  is outside this file, are the fields of `External`.
* The source indexes `rtpmaps` and the vectors returned by `g_strsplit` without
  a bound that keeps the index inside the array, and calls `atoi` on texts whose
  value an `int` may not hold.  Such a read or call has no defined result:
  functions that may perform one return an `Option`, and `none` stands for an
  execution that performed one.
-/

namespace KmsSdp

/-! ## GLib / GStreamer primitives used by the handler -/

/-- Error codes of `KMS_SDP_AGENT_ERROR` used in this file. -/
inductive SdpAgentError where
  | SDP_AGENT_INVALID_MEDIA
  | SDP_AGENT_INVALID_PARAMETER
  | SDP_AGENT_INVALID_PROTOCOL
  | SDP_AGENT_UNEXPECTED_ERROR
  deriving DecidableEq, Repr

open SdpAgentError

/-- Effect of `g_set_error (error, KMS_SDP_AGENT_ERROR, code, ...)` on the slot `*error`:
an empty slot receives the code, a slot that already holds an error keeps it. -/
def g_set_error (slot : Option SdpAgentError) (code : SdpAgentError) : Option SdpAgentError :=
  match slot with
  | none => some code
  | some e => some e

/-- Result codes of the GStreamer SDP setters. -/
inductive GstSDPResult where
  | GST_SDP_OK
  | GST_SDP_EINVAL
  deriving DecidableEq, Repr

open GstSDPResult

/-- One `a=` line of a media description. -/
structure GstSDPAttribute where
  key : String
  value : String
  deriving DecidableEq, Repr

/-- One `m=` section: the fields of `GstSDPMedia` the handler reads and writes. -/
structure GstSDPMedia where
  media : Option String
  port : Nat
  num_ports : Nat
  proto : Option String
  fmts : List String
  attributes : List GstSDPAttribute
  deriving DecidableEq, Repr

/-- Return value, media and error slot after a call of a `gboolean` step. -/
structure Ret where
  ok : Bool
  media : GstSDPMedia
  error : Option SdpAgentError
  deriving DecidableEq, Repr

/-- The media allocated by `gst_sdp_media_new`: every field empty. -/
def gst_sdp_media_new : GstSDPResult × GstSDPMedia :=
  (GST_SDP_OK, { media := none, port := 0, num_ports := 0, proto := none, fmts := [], attributes := [] })

def gst_sdp_media_set_media (m : GstSDPMedia) (med : Option String) : GstSDPResult × GstSDPMedia :=
  (GST_SDP_OK, { m with media := med })

def gst_sdp_media_set_proto (m : GstSDPMedia) (proto : Option String) : GstSDPResult × GstSDPMedia :=
  (GST_SDP_OK, { m with proto := proto })

def gst_sdp_media_set_port_info (m : GstSDPMedia) (port num_ports : Nat) : GstSDPResult × GstSDPMedia :=
  (GST_SDP_OK, { m with port := port, num_ports := num_ports })

def gst_sdp_media_add_format (m : GstSDPMedia) (fmt : String) : GstSDPResult × GstSDPMedia :=
  (GST_SDP_OK, { m with fmts := m.fmts ++ [fmt] })

def gst_sdp_media_add_attribute (m : GstSDPMedia) (key value : String) : GstSDPResult × GstSDPMedia :=
  (GST_SDP_OK, { m with attributes := m.attributes ++ [{ key := key, value := value }] })

/-- Values of the attributes of `m` with the given key, in order:
`gst_sdp_media_get_attribute_val_n (m, key, n)` is the `n`-th element, `NULL` past the end. -/
def attribute_vals (m : GstSDPMedia) (key : String) : List String :=
  (m.attributes.filter (fun a => a.key = key)).map (fun a => a.value)

def gst_sdp_media_get_attribute_val_n (m : GstSDPMedia) (key : String) (n : Nat) : Option String :=
  (attribute_vals m key).get? n

/-- Pieces of a character list cut at every occurrence of `d`. -/
def splitChars (d : Char) : List Char → List (List Char)
  | [] => [[]]
  | c :: cs =>
    if c = d then [] :: splitChars d cs
    else
      match splitChars d cs with
      | [] => [[c]]
      | t :: ts => (c :: t) :: ts

/-- Tokens of `g_strsplit (s, d, 0)` for a one-character delimiter, without the
terminating `NULL`: the empty string gives the empty vector. -/
def g_strsplit (s : String) (d : Char) : List String :=
  if s.data = [] then [] else (splitChars d s.data).map String.mk

/-- Read `v[i]` of a `NULL`-terminated string vector: a token, the terminator
(`some none`), or a read past the allocation (`none`). -/
def strv_index (v : List String) (i : Nat) : Option (Option String) :=
  if i < v.length then some (v.get? i)
  else if i = v.length then some none
  else none

/-- Result of `g_str_has_prefix (str, prefix)`; `FALSE` when an argument is `NULL`. -/
def g_str_has_prefix (str pre : Option String) : Bool :=
  match str, pre with
  | some s, some p => p.data.isPrefixOf s.data
  | _, _ => false

def isspace (c : Char) : Bool :=
  c.toNat = 32 || (9 ≤ c.toNat && c.toNat ≤ 13)

/-- Value of the leading run of decimal digits, continuing from `acc`. -/
def atoi_digits (acc : Nat) : List Char → Nat
  | [] => acc
  | c :: cs => if c.isDigit then atoi_digits (acc * 10 + (c.toNat - 48)) cs else acc

/-- The integer the text denotes for `atoi`: leading white space, an optional
sign, then decimal digits. -/
def atoi_value (s : String) : Int :=
  match s.data.dropWhile isspace with
  | [] => 0
  | c :: cs =>
    if c = '-' then - (atoi_digits 0 cs : Int)
    else if c = '+' then (atoi_digits 0 cs : Int)
    else (atoi_digits 0 (c :: cs) : Int)

/-- Result of `atoi`: the integer the text denotes when an `int` (32 bits) can
represent it; otherwise the behaviour of `atoi` is undefined (`none`). -/
def atoi (s : String) : Option Int :=
  if -2147483648 ≤ atoi_value s ∧ atoi_value s ≤ 2147483647 then some (atoi_value s) else none

/-- Text printed by the conversion `%u`. -/
def print_u (n : Nat) : String := Nat.repr n

/-! ## Tables of the handler -/

def SDP_MEDIA_RTP_AVP_PROTO : String := "RTP/AVP"
def SDP_AUDIO_MEDIA : String := "audio"
def SDP_VIDEO_MEDIA : String := "video"

def DEFAULT_RTP_AUDIO_BASE_PAYLOAD : Nat := 0
def DEFAULT_RTP_VIDEO_BASE_PAYLOAD : Nat := 24

/-- Table extracted from RFC 3551: entry `i` is the encoding of static payload
type `i`, `none` for a reserved or unassigned number. -/
def rtpmaps : List (Option String) :=
  [ some "PCMU/8000/1", none, none, some "GSM/8000/1", some "G723/8000/1",
    some "DVI4/8000/1", some "DVI4/16000/1", some "LPC/8000/1", some "PCMA/8000/1",
    some "G722/8000/1", some "L16/44100/2", some "L16/44100/1", some "QCELP/8000/1",
    some "CN/8000/1", some "MPA/90000", some "G728/8000/1", some "DVI4/11025/1",
    some "DVI4/22050/1", some "G729/8000/1", none, none, none, none, none,
    none, some "CelB/90000", some "JPEG/90000", none, some "nv/90000", none, none,
    some "H261/90000", some "MPV/90000", some "MP2T/90000", some "H263/90000" ]

/-- The value of `G_N_ELEMENTS (rtpmaps)`. -/
def G_N_ELEMENTS_rtpmaps : Nat := rtpmaps.length

/-- Read `rtpmaps[i]`: `none` is a read past the end of the table. -/
def rtpmaps_at (i : Nat) : Option (Option String) := rtpmaps.get? i

structure KmsSdpRtpMap where
  payload : Nat
  name : String
  deriving DecidableEq, Repr

def audio_fmts : List KmsSdpRtpMap :=
  [ { payload := 98, name := "OPUS/48000/2" },
    { payload := 99, name := "AMR/8000/1" },
    { payload := 0, name := "PCMU/8000" } ]

def video_fmts : List KmsSdpRtpMap :=
  [ { payload := 96, name := "H263-1998/90000" },
    { payload := 97, name := "VP8/90000" },
    { payload := 100, name := "MP4V-ES/90000" },
    { payload := 101, name := "H264/90000" } ]

/-- The two format lists the negotiation reads.  The source has them as the
static arrays `audio_fmts` and `video_fmts` (`builtin`); they are a parameter
here so that the checks on their entries can be stated for every list. -/
structure Catalog where
  audio_fmts : List KmsSdpRtpMap
  video_fmts : List KmsSdpRtpMap
  deriving DecidableEq, Repr

def builtin : Catalog := { audio_fmts := audio_fmts, video_fmts := video_fmts }

/-- The format list selected by the media name, with the flag `is_audio`;
`none` for a media that is neither audio nor video. -/
def select_maps (cat : Catalog) (media : Option String) : Option (List KmsSdpRtpMap × Bool) :=
  if media = some SDP_AUDIO_MEDIA then some (cat.audio_fmts, true)
  else if media = some SDP_VIDEO_MEDIA then some (cat.video_fmts, false)
  else none

/-! ## The handler object -/

/-- Instance data: the `proto` property held by the parent class and the
private table `extmaps` (id to URI), listed in the order the table is iterated. -/
structure KmsSdpRtpAvpMediaHandler where
  proto : Option String
  extmaps : List (Nat × String)
  deriving DecidableEq, Repr

/-- Construction with the given value of the `proto` property: a `NULL` value is
replaced by `RTP/AVP` before the parent constructor stores it. -/
def kms_sdp_rtp_avp_media_handler_constructor (proto : Option String) : KmsSdpRtpAvpMediaHandler :=
  { proto := some (proto.getD SDP_MEDIA_RTP_AVP_PROTO), extmaps := [] }

def kms_sdp_rtp_avp_media_handler_new : KmsSdpRtpAvpMediaHandler :=
  kms_sdp_rtp_avp_media_handler_constructor none

def g_hash_table_contains (t : List (Nat × String)) (key : Nat) : Bool :=
  t.any (fun p => p.1 = key)

/-- Insertion of `g_hash_table_insert`: the value of an existing key is replaced,
a new key gets a new entry. -/
def g_hash_table_insert (t : List (Nat × String)) (key : Nat) (value : String) : List (Nat × String) :=
  if g_hash_table_contains t key then t.map (fun p => if p.1 = key then (key, value) else p)
  else t ++ [(key, value)]

def g_hash_table_lookup (t : List (Nat × String)) (key : Nat) : Option String :=
  (t.find? (fun p => p.1 = key)).map (fun p => p.2)

/-- Registration of a header extension; `id` is a `guint8`.  Returns the return
value, the handler and the error slot after the call. -/
def kms_sdp_rtp_avp_media_handler_add_extmap (self : KmsSdpRtpAvpMediaHandler) (id : Nat)
    (uri : String) (error : Option SdpAgentError) :
    Bool × KmsSdpRtpAvpMediaHandler × Option SdpAgentError :=
  let id := id % 256
  if g_hash_table_contains self.extmaps id then
    (false, self, g_set_error error SDP_AGENT_UNEXPECTED_ERROR)
  else
    (true, { self with extmaps := g_hash_table_insert self.extmaps id uri }, error)

/-- Code the handler calls that lies outside this file: the methods of
`parent_class` it chains up to and the helper `sdp_utils_intersect_media_attributes`
(offer, callback, the answer held by the callback data). -/
structure External where
  parent_add_offer_attributes :
    KmsSdpRtpAvpMediaHandler → GstSDPMedia → Option SdpAgentError → Ret
  parent_add_answer_attributes :
    KmsSdpRtpAvpMediaHandler → GstSDPMedia → GstSDPMedia → Option SdpAgentError → Ret
  parent_can_insert_attribute :
    KmsSdpRtpAvpMediaHandler → GstSDPMedia → GstSDPAttribute → GstSDPMedia → Bool
  sdp_utils_intersect_media_attributes :
    GstSDPMedia → (GstSDPAttribute → GstSDPMedia → Bool × GstSDPMedia) → GstSDPMedia →
      Bool × GstSDPMedia

/-- Modelled from the spec: `sdp_utils_get_attr_map_value` of `sdp_utils.c`, the
first attribute value with key `name` whose first space-separated token is `fmt`. -/
def sdp_utils_get_attr_map_value (media : GstSDPMedia) (name : String) (fmt : String) :
    Option String :=
  (attribute_vals media name).find? (fun val => (g_strsplit val ' ').head? = some fmt)

/-! ## Offer construction -/

/-- The checks made on one catalog entry whose payload type is inside the bound
of the default payload types (`kms_sdp_rtp_avp_media_handler_add_supported_fmts`,
body of the first `if` of the loop).  `none`: `rtpmaps` was read past its end;
`some (false, e)`: the function returns `FALSE`; `some (true, e)`: the loop goes
on to add the format.  `e` is the error slot afterwards. -/
def check_default_pt (is_audio : Bool) (rtpmap : KmsSdpRtpMap) (error : Option SdpAgentError) :
    Option (Bool × Option SdpAgentError) :=
  match rtpmaps_at rtpmap.payload with
  | none => none
  | some none => some (true, g_set_error error SDP_AGENT_UNEXPECTED_ERROR)
  | some (some canonical) =>
    if is_audio && decide (rtpmap.payload ≥ DEFAULT_RTP_VIDEO_BASE_PAYLOAD) then
      some (false, g_set_error error SDP_AGENT_UNEXPECTED_ERROR)
    else if !is_audio && decide (rtpmap.payload < DEFAULT_RTP_VIDEO_BASE_PAYLOAD) then
      some (false, g_set_error error SDP_AGENT_UNEXPECTED_ERROR)
    else
      let codec := g_strsplit rtpmap.name '/'
      let ret := g_str_has_prefix (some canonical) codec.head?
      if !ret then some (false, g_set_error error SDP_AGENT_UNEXPECTED_ERROR)
      else some (true, error)

/-- The loop of `kms_sdp_rtp_avp_media_handler_add_supported_fmts` over the
remaining catalog entries. -/
def add_supported_fmts_loop (is_audio : Bool) :
    List KmsSdpRtpMap → GstSDPMedia → Option SdpAgentError → Option Ret
  | [], media, error => some { ok := true, media := media, error := error }
  | rtpmap :: rest, media, error =>
    let checked :=
      if rtpmap.payload ≥ DEFAULT_RTP_AUDIO_BASE_PAYLOAD ∧ rtpmap.payload ≤ G_N_ELEMENTS_rtpmaps then
        check_default_pt is_audio rtpmap error
      else some (true, error)
    match checked with
    | none => none
    | some (false, error1) => some { ok := false, media := media, error := error1 }
    | some (true, error1) =>
      let fmt := print_u rtpmap.payload
      match gst_sdp_media_add_format media fmt with
      | (GST_SDP_OK, media1) => add_supported_fmts_loop is_audio rest media1 error1
      | (_, media1) =>
        some { ok := false, media := media1, error := g_set_error error1 SDP_AGENT_UNEXPECTED_ERROR }

def kms_sdp_rtp_avp_media_handler_add_supported_fmts (cat : Catalog) (media : GstSDPMedia)
    (error : Option SdpAgentError) : Option Ret :=
  match select_maps cat media.media with
  | none =>
    some { ok := false, media := media, error := g_set_error error SDP_AGENT_UNEXPECTED_ERROR }
  | some (maps, is_audio) => add_supported_fmts_loop is_audio maps media error

/-- The loop of `kms_sdp_rtp_avp_media_handler_add_extmaps` over the entries of
the table; the key is read back as a `guint8`. -/
def add_extmaps_loop : List (Nat × String) → GstSDPMedia → Option SdpAgentError → Ret
  | [], media, error => { ok := true, media := media, error := error }
  | (key, uri) :: rest, media, error =>
    let id := key % 256
    let attr := print_u id ++ " " ++ uri
    match gst_sdp_media_add_attribute media "extmap" attr with
    | (GST_SDP_OK, media1) => add_extmaps_loop rest media1 error
    | (_, media1) =>
      { ok := false, media := media1, error := g_set_error error SDP_AGENT_UNEXPECTED_ERROR }

def kms_sdp_rtp_avp_media_handler_add_extmaps (self : KmsSdpRtpAvpMediaHandler)
    (media : GstSDPMedia) (error : Option SdpAgentError) : Ret :=
  add_extmaps_loop self.extmaps media error

/-- The inner loop (over `j`) of `kms_sdp_rtp_avp_media_handler_add_rtpmap_attrs`:
one `rtpmap` attribute for every catalog entry whose payload is `pt`. -/
def add_rtpmap_attrs_inner (pt : Nat) :
    List KmsSdpRtpMap → GstSDPMedia → Option SdpAgentError → Ret
  | [], media, error => { ok := true, media := media, error := error }
  | map :: rest, media, error =>
    if pt ≠ map.payload then add_rtpmap_attrs_inner pt rest media error
    else
      let attr := print_u map.payload ++ " " ++ map.name
      match gst_sdp_media_add_attribute media "rtpmap" attr with
      | (GST_SDP_OK, media1) => add_rtpmap_attrs_inner pt rest media1 error
      | (_, media1) =>
        { ok := false, media := media1, error := g_set_error error SDP_AGENT_UNEXPECTED_ERROR }

/-- The value of `guint pt = atoi (payload)`: the `int` converted to 32 bits unsigned. -/
def atoi_guint (payload : String) : Option Nat :=
  (atoi payload).map (fun v => (v % 4294967296).toNat)

/-- The outer loop (over the formats of the media) of
`kms_sdp_rtp_avp_media_handler_add_rtpmap_attrs`. -/
def add_rtpmap_attrs_loop (maps : List KmsSdpRtpMap) :
    List String → GstSDPMedia → Option SdpAgentError → Option Ret
  | [], media, error => some { ok := true, media := media, error := error }
  | payload :: rest, media, error =>
    match atoi_guint payload with
    | none => none
    | some pt =>
      if pt ≥ DEFAULT_RTP_AUDIO_BASE_PAYLOAD ∧ pt ≤ G_N_ELEMENTS_rtpmaps then
        add_rtpmap_attrs_loop maps rest media error
      else
        let r := add_rtpmap_attrs_inner pt maps media error
        if r.ok then add_rtpmap_attrs_loop maps rest r.media r.error else some r

def kms_sdp_rtp_avp_media_handler_add_rtpmap_attrs (cat : Catalog) (media : GstSDPMedia)
    (error : Option SdpAgentError) : Option Ret :=
  match select_maps cat media.media with
  | none =>
    some { ok := false, media := media, error := g_set_error error SDP_AGENT_UNEXPECTED_ERROR }
  | some (maps, _) => add_rtpmap_attrs_loop maps media.fmts media error

def kms_sdp_rtp_avp_media_handler_init_offer (handler : KmsSdpRtpAvpMediaHandler)
    (media : Option String) (offer : GstSDPMedia) (error : Option SdpAgentError) : Ret :=
  if media ≠ some SDP_AUDIO_MEDIA ∧ media ≠ some SDP_VIDEO_MEDIA then
    { ok := false, media := offer, error := g_set_error error SDP_AGENT_INVALID_MEDIA }
  else
    match gst_sdp_media_set_media offer media with
    | (GST_SDP_OK, offer1) =>
      let proto := handler.proto
      match gst_sdp_media_set_proto offer1 proto with
      | (GST_SDP_OK, offer2) =>
        match gst_sdp_media_set_port_info offer2 1 1 with
        | (GST_SDP_OK, offer3) => { ok := true, media := offer3, error := error }
        | (_, offer3) =>
          { ok := false, media := offer3, error := g_set_error error SDP_AGENT_UNEXPECTED_ERROR }
      | (_, offer2) =>
        { ok := false, media := offer2, error := g_set_error error SDP_AGENT_UNEXPECTED_ERROR }
    | (_, offer1) =>
      { ok := false, media := offer1, error := g_set_error error SDP_AGENT_UNEXPECTED_ERROR }

def kms_sdp_rtp_avp_media_handler_add_offer_attributes (cat : Catalog) (ext : External)
    (handler : KmsSdpRtpAvpMediaHandler) (offer : GstSDPMedia) (error : Option SdpAgentError) :
    Option Ret :=
  match kms_sdp_rtp_avp_media_handler_add_supported_fmts cat offer error with
  | none => none
  | some r1 =>
    if !r1.ok then some r1
    else
      let r2 := kms_sdp_rtp_avp_media_handler_add_extmaps handler r1.media r1.error
      if !r2.ok then some r2
      else
        match kms_sdp_rtp_avp_media_handler_add_rtpmap_attrs cat r2.media r2.error with
        | none => none
        | some r3 =>
          if !r3.ok then some r3
          else some (ext.parent_add_offer_attributes handler r3.media r3.error)

/-- What a `create_*` function hands back: the media (`none` for `NULL`) and the
error slot. -/
structure Created where
  media : Option GstSDPMedia
  error : Option SdpAgentError
  deriving DecidableEq, Repr

/-- The function `kms_sdp_rtp_avp_media_handler_create_offer`, called with an empty error slot. -/
def kms_sdp_rtp_avp_media_handler_create_offer (cat : Catalog) (ext : External)
    (handler : KmsSdpRtpAvpMediaHandler) (media : Option String) : Option Created :=
  match gst_sdp_media_new with
  | (GST_SDP_OK, m) =>
    let r1 := kms_sdp_rtp_avp_media_handler_init_offer handler media m none
    if !r1.ok then some { media := none, error := r1.error }
    else
      match kms_sdp_rtp_avp_media_handler_add_offer_attributes cat ext handler r1.media r1.error with
      | none => none
      | some r2 =>
        if !r2.ok then some { media := none, error := r2.error }
        else some { media := some r2.media, error := r2.error }
  | (_, _) => some { media := none, error := some SDP_AGENT_UNEXPECTED_ERROR }

/-! ## Answer construction -/

def encoding_supported (cat : Catalog) (media : GstSDPMedia) (enc : Option String) : Bool :=
  match select_maps cat media.media with
  | none => false
  | some (maps, _) => maps.any (fun map => g_str_has_prefix enc (some map.name))

/-- The test `pt >= 0 && pt <= G_N_ELEMENTS (rtpmaps)` on a `gint`. -/
def in_default_pt_bound (pt : Int) : Bool :=
  decide (pt ≥ 0) && decide (pt ≤ (G_N_ELEMENTS_rtpmaps : Int))

def format_supported (cat : Catalog) (media : GstSDPMedia) (fmt : String) : Option Bool :=
  match sdp_utils_get_attr_map_value media "rtpmap" fmt with
  | none =>
    match atoi fmt with
    | none => none
    | some pt =>
      if in_default_pt_bound pt then
        match rtpmaps_at pt.toNat with
        | none => none
        | some none => some false
        | some (some name) => some (encoding_supported cat media (some name))
      else some false
  | some val =>
    let attrs := g_strsplit val ' '
    match strv_index attrs 1 with
    | none => none
    | some enc => some (encoding_supported cat media enc)

/-- The inner loop (over the table of the handler) of
`kms_sdp_rtp_avp_media_handler_add_supported_extmaps` for one offer attribute. -/
def add_supported_extmaps_inner (attr offer_uri : String) :
    List (Nat × String) → GstSDPMedia → Option SdpAgentError → Ret
  | [], answer, error => { ok := true, media := answer, error := error }
  | (_, uri) :: rest, answer, error =>
    if offer_uri ≠ uri then add_supported_extmaps_inner attr offer_uri rest answer error
    else
      match gst_sdp_media_add_attribute answer "extmap" attr with
      | (GST_SDP_OK, answer1) => add_supported_extmaps_inner attr offer_uri rest answer1 error
      | (_, answer1) =>
        { ok := false, media := answer1, error := g_set_error error SDP_AGENT_UNEXPECTED_ERROR }

/-- The outer loop of `kms_sdp_rtp_avp_media_handler_add_supported_extmaps` over
the remaining `extmap` attribute values of the offer. -/
def add_supported_extmaps_loop (self : KmsSdpRtpAvpMediaHandler) :
    List String → GstSDPMedia → Option SdpAgentError → Option Ret
  | [], answer, error => some { ok := true, media := answer, error := error }
  | attr :: rest, answer, error =>
    let tokens := g_strsplit attr ' '
    match strv_index tokens 1 with
    | none => none
    | some none =>
      some { ok := false, media := answer, error := g_set_error error SDP_AGENT_UNEXPECTED_ERROR }
    | some (some offer_uri) =>
      let r := add_supported_extmaps_inner attr offer_uri self.extmaps answer error
      if r.ok then add_supported_extmaps_loop self rest r.media r.error else some r

/-- The function walks `gst_sdp_media_get_attribute_val_n (offer, "extmap", a)` for
`a = 0, 1, ...` up to the first `NULL`: the list `attribute_vals offer "extmap"`. -/
def kms_sdp_rtp_avp_media_handler_add_supported_extmaps (self : KmsSdpRtpAvpMediaHandler)
    (offer answer : GstSDPMedia) (error : Option SdpAgentError) : Option Ret :=
  add_supported_extmaps_loop self (attribute_vals offer "extmap") answer error

/-- The loop of `add_supported_rtpmap_attrs` over the remaining formats of the answer. -/
def add_supported_rtpmap_attrs_loop (cat : Catalog) (offer : GstSDPMedia) :
    List String → GstSDPMedia → Option SdpAgentError → Option Ret
  | [], answer, error => some { ok := true, media := answer, error := error }
  | fmt :: rest, answer, error =>
    match sdp_utils_get_attr_map_value offer "rtpmap" fmt with
    | none =>
      match atoi fmt with
      | none => none
      | some pt =>
        if in_default_pt_bound pt then
          match rtpmaps_at pt.toNat with
          | none => none
          | some none => some { ok := false, media := answer, error := error }
          | some (some name) =>
            if encoding_supported cat offer (some name) then
              add_supported_rtpmap_attrs_loop cat offer rest answer error
            else some { ok := false, media := answer, error := error }
        else some { ok := false, media := answer, error := error }
    | some val =>
      match gst_sdp_media_add_attribute answer "rtpmap" val with
      | (GST_SDP_OK, answer1) => add_supported_rtpmap_attrs_loop cat offer rest answer1 error
      | (_, answer1) =>
        some { ok := false, media := answer1,
               error := g_set_error error SDP_AGENT_UNEXPECTED_ERROR }

def add_supported_rtpmap_attrs (cat : Catalog) (offer answer : GstSDPMedia)
    (error : Option SdpAgentError) : Option Ret :=
  add_supported_rtpmap_attrs_loop cat offer answer.fmts answer error

def kms_sdp_rtp_avp_media_handler_can_insert_attribute (ext : External)
    (handler : KmsSdpRtpAvpMediaHandler) (offer : GstSDPMedia) (attr : GstSDPAttribute)
    (answer : GstSDPMedia) : Bool :=
  if attr.key = "rtpmap" ∨ attr.key = "extmap" then false
  else if !ext.parent_can_insert_attribute handler offer attr answer then false
  else true

/-- The callback `instersect_rtp_avp_media_attr`; the second argument is the
answer held by the callback data. -/
def instersect_rtp_avp_media_attr (ext : External) (handler : KmsSdpRtpAvpMediaHandler)
    (offer : GstSDPMedia) (attr : GstSDPAttribute) (answer : GstSDPMedia) : Bool × GstSDPMedia :=
  if !kms_sdp_rtp_avp_media_handler_can_insert_attribute ext handler offer attr answer then
    (false, answer)
  else
    match gst_sdp_media_add_attribute answer attr.key attr.value with
    | (GST_SDP_OK, answer1) => (true, answer1)
    | (_, answer1) => (false, answer1)

def kms_sdp_rtp_avp_media_handler_intersect_sdp_medias (ext : External)
    (handler : KmsSdpRtpAvpMediaHandler) (offer answer : GstSDPMedia)
    (error : Option SdpAgentError) : Ret :=
  match ext.sdp_utils_intersect_media_attributes offer
      (instersect_rtp_avp_media_attr ext handler offer) answer with
  | (false, answer1) =>
    { ok := false, media := answer1, error := g_set_error error SDP_AGENT_UNEXPECTED_ERROR }
  | (true, answer1) => { ok := true, media := answer1, error := error }

def kms_sdp_rtp_avp_media_handler_init_answer (handler : KmsSdpRtpAvpMediaHandler)
    (offer answer : GstSDPMedia) (error : Option SdpAgentError) : Ret :=
  if offer.media ≠ some SDP_AUDIO_MEDIA ∧ offer.media ≠ some SDP_VIDEO_MEDIA then
    { ok := false, media := answer, error := g_set_error error SDP_AGENT_INVALID_MEDIA }
  else
    let proto := handler.proto
    if proto ≠ offer.proto then
      { ok := false, media := answer, error := g_set_error error SDP_AGENT_INVALID_PROTOCOL }
    else
      match gst_sdp_media_set_media answer offer.media with
      | (GST_SDP_OK, answer1) =>
        match gst_sdp_media_set_proto answer1 proto with
        | (GST_SDP_OK, answer2) => { ok := true, media := answer2, error := error }
        | (_, answer2) =>
          { ok := false, media := answer2,
            error := g_set_error error SDP_AGENT_INVALID_PARAMETER }
      | (_, answer1) =>
        { ok := false, media := answer1, error := g_set_error error SDP_AGENT_INVALID_PARAMETER }

/-- The loop of `kms_sdp_rtp_avp_media_handler_add_answer_attributes_impl` that
sets the supported formats of the offer in the answer. -/
def add_answer_fmts_loop (cat : Catalog) (offer : GstSDPMedia) :
    List String → GstSDPMedia → Option SdpAgentError → Option Ret
  | [], answer, error => some { ok := true, media := answer, error := error }
  | fmt :: rest, answer, error =>
    match format_supported cat offer fmt with
    | none => none
    | some false => add_answer_fmts_loop cat offer rest answer error
    | some true =>
      match gst_sdp_media_add_format answer fmt with
      | (GST_SDP_OK, answer1) => add_answer_fmts_loop cat offer rest answer1 error
      | (_, answer1) =>
        some { ok := false, media := answer1,
               error := g_set_error error SDP_AGENT_UNEXPECTED_ERROR }

def kms_sdp_rtp_avp_media_handler_add_answer_attributes_impl (cat : Catalog) (ext : External)
    (handler : KmsSdpRtpAvpMediaHandler) (offer answer : GstSDPMedia)
    (error : Option SdpAgentError) : Option Ret :=
  let r0 := ext.parent_add_answer_attributes handler offer answer error
  if !r0.ok then some r0
  else
    match add_answer_fmts_loop cat offer offer.fmts r0.media r0.error with
    | none => none
    | some r1 =>
      if !r1.ok then some r1
      else
        let port := if r1.media.fmts.length > 0 then 1 else 0
        match gst_sdp_media_set_port_info r1.media port 1 with
        | (GST_SDP_OK, answer2) =>
          match kms_sdp_rtp_avp_media_handler_add_supported_extmaps handler offer answer2
              r1.error with
          | none => none
          | some r3 =>
            if !r3.ok then some r3
            else add_supported_rtpmap_attrs cat offer r3.media r3.error
        | (_, answer2) =>
          some { ok := false, media := answer2,
                 error := g_set_error r1.error SDP_AGENT_INVALID_PARAMETER }

/-- The function `kms_sdp_rtp_avp_media_handler_create_answer`, called with an empty error slot. -/
def kms_sdp_rtp_avp_media_handler_create_answer (cat : Catalog) (ext : External)
    (handler : KmsSdpRtpAvpMediaHandler) (offer : GstSDPMedia) : Option Created :=
  match gst_sdp_media_new with
  | (GST_SDP_OK, m) =>
    let r1 := kms_sdp_rtp_avp_media_handler_init_answer handler offer m none
    if !r1.ok then some { media := none, error := r1.error }
    else
      match kms_sdp_rtp_avp_media_handler_add_answer_attributes_impl cat ext handler offer
          r1.media r1.error with
      | none => none
      | some r2 =>
        if !r2.ok then some { media := none, error := r2.error }
        else
          let r3 := kms_sdp_rtp_avp_media_handler_intersect_sdp_medias ext handler offer
            r2.media r2.error
          if !r3.ok then some { media := none, error := r3.error }
          else some { media := some r3.media, error := r3.error }
  | (_, _) => some { media := none, error := some SDP_AGENT_UNEXPECTED_ERROR }

/-! ## Reference instances -/

/-- Modelled from the spec: the base generic attribute steps, which are a no-op
for the base case, the base `can_insert_attribute`, which accepts an attribute
not already present, and `sdp_utils_intersect_media_attributes`, which hands every attribute of the
offer, in order, to the callback. -/
def base : External where
  parent_add_offer_attributes := fun _ offer error => { ok := true, media := offer, error := error }
  parent_add_answer_attributes := fun _ _ answer error =>
    { ok := true, media := answer, error := error }
  parent_can_insert_attribute := fun _ _ attr answer => !(answer.attributes.contains attr)
  sdp_utils_intersect_media_attributes := fun offer func answer =>
    (true, offer.attributes.foldl (fun a attr => (func attr a).2) answer)

/-- What the proofs assume of the code outside this file: the generic attribute
steps of the parent class leave the m-line fields, the formats and the `rtpmap`
and `extmap` attributes as they are, and `sdp_utils_intersect_media_attributes`
changes the answer through the callback only. -/
structure External.Generic (ext : External) : Prop where
  offer_step : ∀ h m e,
    (ext.parent_add_offer_attributes h m e).media.media = m.media ∧
    (ext.parent_add_offer_attributes h m e).media.proto = m.proto ∧
    (ext.parent_add_offer_attributes h m e).media.port = m.port ∧
    (ext.parent_add_offer_attributes h m e).media.num_ports = m.num_ports ∧
    (ext.parent_add_offer_attributes h m e).media.fmts = m.fmts ∧
    attribute_vals (ext.parent_add_offer_attributes h m e).media "rtpmap" = attribute_vals m "rtpmap" ∧
    attribute_vals (ext.parent_add_offer_attributes h m e).media "extmap" = attribute_vals m "extmap"
  answer_step : ∀ h o a e,
    (ext.parent_add_answer_attributes h o a e).media.media = a.media ∧
    (ext.parent_add_answer_attributes h o a e).media.proto = a.proto ∧
    (ext.parent_add_answer_attributes h o a e).media.fmts = a.fmts ∧
    attribute_vals (ext.parent_add_answer_attributes h o a e).media "rtpmap" = attribute_vals a "rtpmap" ∧
    attribute_vals (ext.parent_add_answer_attributes h o a e).media "extmap" = attribute_vals a "extmap"
  through_callback : ∀ (P : GstSDPMedia → Prop) offer func answer,
    (∀ attr a, P a → P (func attr a).2) → P answer →
      P (ext.sdp_utils_intersect_media_attributes offer func answer).2

/-- Error kinds named by the specification. -/
inductive NegotiationErrorKind where
  | UnsupportedMedia
  | InvalidMedia
  | InvalidProtocol
  | InvalidParameter
  | UnexpectedError
  deriving DecidableEq, Repr

/-- The kind an error code of the source is reported as: the kind of the same name. -/
def SdpAgentError.kind : SdpAgentError → NegotiationErrorKind
  | SDP_AGENT_INVALID_MEDIA => NegotiationErrorKind.InvalidMedia
  | SDP_AGENT_INVALID_PARAMETER => NegotiationErrorKind.InvalidParameter
  | SDP_AGENT_INVALID_PROTOCOL => NegotiationErrorKind.InvalidProtocol
  | SDP_AGENT_UNEXPECTED_ERROR => NegotiationErrorKind.UnexpectedError

/-! ## Closed forms and sample data used in the statements -/

/-- The media `m` with the attributes `l` appended. -/
def with_attributes (m : GstSDPMedia) (l : List GstSDPAttribute) : GstSDPMedia :=
  { m with attributes := m.attributes ++ l }

/-- The media `m` with the formats `l` appended. -/
def with_fmts (m : GstSDPMedia) (l : List String) : GstSDPMedia :=
  { m with fmts := m.fmts ++ l }

/-- The attribute `add_extmaps` writes for one entry of the table. -/
def offer_extmap_of (p : Nat × String) : GstSDPAttribute :=
  { key := "extmap", value := print_u (p.1 % 256) ++ " " ++ p.2 }

/-- The attribute `add_rtpmap_attrs` writes for one entry of the catalog. -/
def offer_rtpmap_of (mp : KmsSdpRtpMap) : GstSDPAttribute :=
  { key := "rtpmap", value := print_u mp.payload ++ " " ++ mp.name }

/-- The attributes `add_rtpmap_attrs` writes for one format of the media. -/
def offer_rtpmaps_of (maps : List KmsSdpRtpMap) (payload : String) : List GstSDPAttribute :=
  match atoi_guint payload with
  | none => []
  | some pt =>
    if pt ≥ DEFAULT_RTP_AUDIO_BASE_PAYLOAD ∧ pt ≤ G_N_ELEMENTS_rtpmaps then []
    else (maps.filter (fun mp => decide (pt = mp.payload))).map offer_rtpmap_of

/-- The attribute with key `rtpmap` and the given value. -/
def rtpmap_attr (value : String) : GstSDPAttribute := { key := "rtpmap", value := value }

/-- The offer as it stands when `add_offer_attributes` chains up to the parent
class, for a media name, its formats and its `rtpmap` values. -/
def offer_before_chain_up (handler : KmsSdpRtpAvpMediaHandler) (kind : String)
    (fmts rtpmap_vals : List String) : GstSDPMedia :=
  { media := some kind, port := 1, num_ports := 1, proto := handler.proto, fmts := fmts,
    attributes := handler.extmaps.map offer_extmap_of ++ rtpmap_vals.map rtpmap_attr }

/-- What `create_offer` hands back for the result of its last step. -/
def created_of (r : Ret) : Created :=
  if r.ok then { media := some r.media, error := r.error } else { media := none, error := r.error }

/-- The media `init_offer` leaves for a media name that it accepts. -/
def offer_after_init (handler : KmsSdpRtpAvpMediaHandler) (kind : String) : GstSDPMedia :=
  { media := some kind, port := 1, num_ports := 1, proto := handler.proto, fmts := [],
    attributes := [] }

/-- The m-line fields other than the formats agree. -/
def same_m_line (a b : GstSDPMedia) : Prop :=
  a.media = b.media ∧ a.proto = b.proto ∧ a.port = b.port ∧ a.num_ports = b.num_ports

/-- The payload number lies in the static range of RFC 3551, the indices 0..34 of `rtpmaps`. -/
def in_static_range (pt : Int) : Bool :=
  decide (0 ≤ pt) && decide (pt.toNat < rtpmaps.length)

/-- The payload number is a static payload type: a number of the static range
to which `rtpmaps` assigns an encoding. -/
def static_payload_type (pt : Int) : Bool :=
  decide (0 ≤ pt) && (rtpmaps_at pt.toNat).join.isSome

/-- The number of the format lies in the static range. -/
def fmt_in_static_range (fmt : String) : Bool :=
  in_static_range (atoi_value fmt)

/-- The number of the format is a static payload type. -/
def fmt_static_payload_type (fmt : String) : Bool :=
  static_payload_type (atoi_value fmt)

/-- The attribute with key `extmap` and the given value. -/
def extmap_attr (value : String) : GstSDPAttribute := { key := "extmap", value := value }

/-- The copies of one `extmap` value of the offer that `add_supported_extmaps`
writes: one for every entry of the table whose URI is the second token. -/
def answer_extmap_vals_of (self : KmsSdpRtpAvpMediaHandler) (attr : String) : List String :=
  match strv_index (g_strsplit attr ' ') 1 with
  | some (some offer_uri) =>
    (self.extmaps.filter (fun p => decide (offer_uri = p.2))).map (fun _ => attr)
  | _ => []

/-- The `extmap` values `add_supported_extmaps` writes for the `extmap` values `l`
of the offer. -/
def answer_extmap_vals (self : KmsSdpRtpAvpMediaHandler) (l : List String) : List String :=
  (l.map (answer_extmap_vals_of self)).flatten

/-- The `rtpmap` values `add_supported_rtpmap_attrs` writes for the formats `l`. -/
def answer_rtpmap_vals (offer : GstSDPMedia) (l : List String) : List String :=
  l.filterMap (fun fmt => sdp_utils_get_attr_map_value offer "rtpmap" fmt)

/-- The formats of the answer after the format loop, from the answer `a0` the
parent step left. -/
def answer_fmts (cat : Catalog) (offer a0 : GstSDPMedia) : List String :=
  a0.fmts ++ offer.fmts.filter (fun fmt => decide (format_supported cat offer fmt = some true))

/-- The answer after `add_answer_attributes_impl` has returned `TRUE`, from the
answer `a0` the parent step left. -/
def answer_after_steps (cat : Catalog) (self : KmsSdpRtpAvpMediaHandler)
    (offer a0 : GstSDPMedia) : GstSDPMedia :=
  { media := a0.media,
    port := if (answer_fmts cat offer a0).length > 0 then 1 else 0,
    num_ports := 1,
    proto := a0.proto,
    fmts := answer_fmts cat offer a0,
    attributes := a0.attributes ++
      ((answer_extmap_vals self (attribute_vals offer "extmap")).map extmap_attr ++
        (answer_rtpmap_vals offer (answer_fmts cat offer a0)).map rtpmap_attr) }

/-- The callback keeps the m-line fields, the formats and the `rtpmap` and
`extmap` values of the answer. -/
def same_negotiated (a b : GstSDPMedia) : Prop :=
  a.media = b.media ∧ a.proto = b.proto ∧ a.port = b.port ∧ a.num_ports = b.num_ports ∧
    a.fmts = b.fmts ∧ attribute_vals a "rtpmap" = attribute_vals b "rtpmap" ∧
    attribute_vals a "extmap" = attribute_vals b "extmap"

/-- The answer `init_answer` leaves, from a new media, for an offer it accepts. -/
def answer_after_init (offer : GstSDPMedia) : GstSDPMedia :=
  { media := offer.media, port := 0, num_ports := 0, proto := offer.proto, fmts := [],
    attributes := [] }

/-- A handler with the default protocol and the extension 5 registered. -/
def handler1 : KmsSdpRtpAvpMediaHandler :=
  { proto := some "RTP/AVP", extmaps := [(5, "urn:example:ext")] }

/-- An audio offer: a dynamic format with its `rtpmap`, the static format 0, a
format unknown to both sides, one header extension and one other attribute. -/
def offer1 : GstSDPMedia :=
  { media := some "audio", port := 9, num_ports := 1, proto := some "RTP/AVP",
    fmts := ["98", "0", "120"],
    attributes := [rtpmap_attr "98 OPUS/48000/2", extmap_attr "1 urn:example:ext",
      { key := "sendrecv", value := "" }] }

/-- The answer of `handler1` to `offer1` after `add_answer_attributes_impl`. -/
def answer1_steps : GstSDPMedia :=
  { media := some "audio", port := 1, num_ports := 1, proto := some "RTP/AVP",
    fmts := ["98", "0"],
    attributes := [extmap_attr "1 urn:example:ext", rtpmap_attr "98 OPUS/48000/2"] }

/-- The answer of `handler1` to `offer1` returned by `create_answer`. -/
def answer1 : GstSDPMedia :=
  { media := some "audio", port := 1, num_ports := 1, proto := some "RTP/AVP",
    fmts := ["98", "0"],
    attributes := [extmap_attr "1 urn:example:ext", rtpmap_attr "98 OPUS/48000/2",
      { key := "sendrecv", value := "" }] }

/-- The offer the reference instance returns for audio from a new handler. -/
def audio_offer : GstSDPMedia :=
  { media := some "audio", port := 1, num_ports := 1, proto := some "RTP/AVP",
    fmts := ["98", "99", "0"],
    attributes := [rtpmap_attr "98 OPUS/48000/2", rtpmap_attr "99 AMR/8000/1"] }

/-- A video media with no formats and no attributes. -/
def video_media : GstSDPMedia :=
  { media := some "video", port := 9, num_ports := 1, proto := some "RTP/AVP", fmts := [],
    attributes := [] }

/-- An audio offer with one format that is not supported and an `extmap`
attribute that has an id but no URI. -/
def offer_no_uri : GstSDPMedia :=
  { media := some "audio", port := 9, num_ports := 1, proto := some "RTP/AVP",
    fmts := ["120"], attributes := [extmap_attr "3"] }

/-- An audio offer with one format that is not supported and one header extension. -/
def offer_unsupported : GstSDPMedia :=
  { media := some "audio", port := 9, num_ports := 1, proto := some "RTP/AVP",
    fmts := ["120"], attributes := [extmap_attr "1 urn:example:ext"] }

/-- An audio offer with the dynamic format 98 of the catalog, carrying the
`rtpmap` of the catalog, and the format 120, which has no `rtpmap` and is
outside the static table. -/
def offer_mixed : GstSDPMedia :=
  { media := some "audio", port := 9, num_ports := 1, proto := some "RTP/AVP",
    fmts := ["98", "120"], attributes := [rtpmap_attr "98 OPUS/48000/2"] }

/-- The answer of `handler1` to `offer_mixed` returned by `create_answer`. -/
def answer_mixed : GstSDPMedia :=
  { media := some "audio", port := 1, num_ports := 1, proto := some "RTP/AVP",
    fmts := ["98"], attributes := [rtpmap_attr "98 OPUS/48000/2"] }

/-- A catalog whose audio list uses the payload number 1, a reserved slot of the
RFC 3551 table. -/
def catalog_reserved : Catalog :=
  { audio_fmts := [{ payload := 1, name := "X/8000" }], video_fmts := [] }

/-- A catalog whose audio list uses the payload number 25, assigned to a video
encoding in the RFC 3551 table. -/
def catalog_video_number : Catalog :=
  { audio_fmts := [{ payload := 25, name := "CelB/90000" }], video_fmts := [] }

/-- The offer `create_offer` returns for audio with `catalog_reserved`. -/
def offer_reserved : GstSDPMedia :=
  { media := some "audio", port := 1, num_ports := 1, proto := some "RTP/AVP", fmts := ["1"],
    attributes := [] }

/-- An audio offer whose only format is 35, with no `rtpmap` attribute. -/
def offer_35 : GstSDPMedia :=
  { media := some "audio", port := 9, num_ports := 1, proto := some "RTP/AVP", fmts := ["35"],
    attributes := [] }

/-- A catalog whose audio list uses the payload number 35. -/
def catalog_35 : Catalog :=
  { audio_fmts := [{ payload := 35, name := "X/8000" }], video_fmts := [] }

/-- An answer that holds the format 120. -/
def answer_120 : GstSDPMedia :=
  { media := some "audio", port := 1, num_ports := 1, proto := some "RTP/AVP", fmts := ["120"],
    attributes := [] }

/-- The number of entries of the table of the handler whose URI is the URI token
(second token) of the `extmap` value `v`. -/
def matching_mappings (self : KmsSdpRtpAvpMediaHandler) (v : String) : Nat :=
  match strv_index (g_strsplit v ' ') 1 with
  | some (some offer_uri) => self.extmaps.countP (fun p => decide (offer_uri = p.2))
  | _ => 0

/-- A handler with two ids registered for one URI. -/
def handler2 : KmsSdpRtpAvpMediaHandler :=
  { proto := some "RTP/AVP",
    extmaps := [(5, "urn:example:ext"), (7, "urn:example:ext")] }

/-- An audio offer with two header extensions, the second unknown to `handler2`. -/
def offer2 : GstSDPMedia :=
  { media := some "audio", port := 9, num_ports := 1, proto := some "RTP/AVP",
    fmts := ["0"],
    attributes := [extmap_attr "1 urn:example:ext", extmap_attr "2 urn:example:other"] }

/-- The answer of `handler2` to `offer2` returned by `create_answer`. -/
def answer2 : GstSDPMedia :=
  { media := some "audio", port := 1, num_ports := 1, proto := some "RTP/AVP",
    fmts := ["0"],
    attributes := [extmap_attr "1 urn:example:ext", extmap_attr "1 urn:example:ext"] }

/-- The offer the reference instance returns for audio from `handler2`. -/
def audio_offer2 : GstSDPMedia :=
  { media := some "audio", port := 1, num_ports := 1, proto := some "RTP/AVP",
    fmts := ["98", "99", "0"],
    attributes := [extmap_attr "5 urn:example:ext", extmap_attr "7 urn:example:ext",
      rtpmap_attr "98 OPUS/48000/2", rtpmap_attr "99 AMR/8000/1"] }

/-- The handler after the calls `add_extmap (id, uri)` of the list, in order,
each with an empty error slot. -/
def add_extmap_calls (calls : List (Nat × String)) (self : KmsSdpRtpAvpMediaHandler) :
    KmsSdpRtpAvpMediaHandler :=
  calls.foldl (fun h c => (kms_sdp_rtp_avp_media_handler_add_extmap h c.1 c.2 none).2.1) self

/-- The answer as `add_answer_attributes_impl` leaves it for `offer_no_uri` when
the extension step fails. -/
def answer_no_uri_failed : GstSDPMedia :=
  { media := some "audio", port := 0, num_ports := 1, proto := some "RTP/AVP", fmts := [],
    attributes := [] }

/-- What `format_supported` returns for a format without `rtpmap` whose number
`i` passed the check of the static range: the acceptance of the encoding of
slot `i` of `rtpmaps` for the media. -/
def static_accept (cat : Catalog) (media : Option String) (i : Nat) : Option Bool :=
  match rtpmaps_at i with
  | none => none
  | some none => some false
  | some (some name) =>
    some (match select_maps cat media with
      | none => false
      | some (maps, _) => maps.any (fun map => g_str_has_prefix (some name) (some map.name)))

/-- A video offer with the static formats 34 and 0 and no `rtpmap` attribute. -/
def video_offer_static : GstSDPMedia :=
  { media := some "video", port := 9, num_ports := 1, proto := some "RTP/AVP",
    fmts := ["34", "0"], attributes := [] }

/-- An audio offer with the static formats 0 and 8 and no `rtpmap` attribute. -/
def audio_offer_static : GstSDPMedia :=
  { media := some "audio", port := 9, num_ports := 1, proto := some "RTP/AVP",
    fmts := ["0", "8"], attributes := [] }

/-! ## Lemmas: the reference instance -/

theorem foldl_callback_invariant (P : GstSDPMedia → Prop)
    (func : GstSDPAttribute → GstSDPMedia → Bool × GstSDPMedia)
    (hstep : ∀ attr a, P a → P (func attr a).2) (attrs : List GstSDPAttribute) :
    ∀ answer, P answer → P (attrs.foldl (fun a attr => (func attr a).2) answer) := by
  induction attrs with
  | nil => intro answer h; simpa using h
  | cons x xs ih =>
    intro answer h
    simp only [List.foldl_cons]
    exact ih _ (hstep x answer h)

theorem base_generic : base.Generic where
  offer_step := by intro h m e; simp [base]
  answer_step := by intro h o a e; simp [base]
  through_callback := by
    intro P offer func answer hstep h0
    exact foldl_callback_invariant P func hstep offer.attributes answer h0

/-! ## Lemmas: offer construction -/

theorem add_supported_fmts_loop_frame (is_audio : Bool) (maps : List KmsSdpRtpMap) :
    ∀ (m : GstSDPMedia) (e : Option SdpAgentError) (r : Ret),
      add_supported_fmts_loop is_audio maps m e = some r →
      ∃ l, r.media = with_fmts m l := by
  induction maps with
  | nil =>
    intro m e r h
    simp only [add_supported_fmts_loop, Option.some.injEq] at h
    exact ⟨[], by subst h; simp [with_fmts]⟩
  | cons x xs ih =>
    intro m e r h
    unfold add_supported_fmts_loop at h
    simp only [gst_sdp_media_add_format] at h
    split at h
    · exact absurd h (by simp)
    · simp only [Option.some.injEq] at h
      exact ⟨[], by subst h; simp [with_fmts]⟩
    · obtain ⟨l, hl⟩ := ih _ _ _ h
      exact ⟨print_u x.payload :: l, by rw [hl]; simp [with_fmts]⟩

theorem add_extmaps_loop_eq (t : List (Nat × String)) :
    ∀ (m : GstSDPMedia) (e : Option SdpAgentError),
      add_extmaps_loop t m e =
        { ok := true, media := with_attributes m (t.map offer_extmap_of), error := e } := by
  induction t with
  | nil => intro m e; simp [add_extmaps_loop, with_attributes]
  | cons x xs ih =>
    intro m e
    obtain ⟨id, uri⟩ := x
    simp [add_extmaps_loop, gst_sdp_media_add_attribute, ih, with_attributes, offer_extmap_of]

theorem add_rtpmap_attrs_inner_eq (pt : Nat) (maps : List KmsSdpRtpMap) :
    ∀ (m : GstSDPMedia) (e : Option SdpAgentError),
      add_rtpmap_attrs_inner pt maps m e =
        { ok := true,
          media := with_attributes m
            ((maps.filter (fun mp => decide (pt = mp.payload))).map offer_rtpmap_of),
          error := e } := by
  induction maps with
  | nil => intro m e; simp [add_rtpmap_attrs_inner, with_attributes]
  | cons x xs ih =>
    intro m e
    by_cases hx : pt = x.payload
    · subst hx
      simp [add_rtpmap_attrs_inner, gst_sdp_media_add_attribute, ih, with_attributes,
        offer_rtpmap_of]
    · simp [add_rtpmap_attrs_inner, ih, hx, with_attributes]

theorem add_rtpmap_attrs_loop_eq (maps : List KmsSdpRtpMap) (l : List String) :
    ∀ (m : GstSDPMedia) (e : Option SdpAgentError) (r : Ret),
      add_rtpmap_attrs_loop maps l m e = some r →
      r = { ok := true,
            media := with_attributes m (l.map (offer_rtpmaps_of maps)).flatten,
            error := e } := by
  induction l with
  | nil =>
    intro m e r h
    simp only [add_rtpmap_attrs_loop, Option.some.injEq] at h
    subst h
    simp [with_attributes]
  | cons x xs ih =>
    intro m e r h
    unfold add_rtpmap_attrs_loop at h
    cases hp : atoi_guint x with
    | none => rw [hp] at h; exact absurd h (by simp)
    | some pt =>
      rw [hp] at h
      dsimp only at h
      by_cases hx : pt ≥ DEFAULT_RTP_AUDIO_BASE_PAYLOAD ∧ pt ≤ G_N_ELEMENTS_rtpmaps
      · rw [if_pos hx] at h
        rw [ih _ _ _ h]
        simp [offer_rtpmaps_of, hp, hx]
      · rw [if_neg hx] at h
        simp only [add_rtpmap_attrs_inner_eq, if_true] at h
        rw [ih _ _ _ h]
        simp [offer_rtpmaps_of, hp, hx, with_attributes]

theorem add_rtpmap_attrs_loop_defined (maps : List KmsSdpRtpMap) (l : List String)
    (hl : ∀ p ∈ l, atoi_guint p ≠ none) :
    ∀ (m : GstSDPMedia) (e : Option SdpAgentError),
      add_rtpmap_attrs_loop maps l m e =
        some { ok := true,
               media := with_attributes m (l.map (offer_rtpmaps_of maps)).flatten,
               error := e } := by
  induction l with
  | nil => intro m e; simp [add_rtpmap_attrs_loop, with_attributes]
  | cons x xs ih =>
    intro m e
    have ihx := ih (fun p hp => hl p (List.mem_cons_of_mem _ hp))
    cases hp : atoi_guint x with
    | none => exact absurd hp (hl x (List.mem_cons_self _ _))
    | some pt =>
      unfold add_rtpmap_attrs_loop
      rw [hp]
      dsimp only
      by_cases hx : pt ≥ DEFAULT_RTP_AUDIO_BASE_PAYLOAD ∧ pt ≤ G_N_ELEMENTS_rtpmaps
      · rw [if_pos hx, ihx]
        simp [offer_rtpmaps_of, hp, hx]
      · rw [if_neg hx]
        simp only [add_rtpmap_attrs_inner_eq, if_true]
        rw [ihx]
        simp [offer_rtpmaps_of, hp, hx, with_attributes]

theorem attribute_vals_with_attributes (m : GstSDPMedia) (l : List GstSDPAttribute) (key : String) :
    attribute_vals (with_attributes m l) key =
      attribute_vals m key ++ (l.filter (fun a => a.key = key)).map (fun a => a.value) := by
  simp [attribute_vals, with_attributes]

theorem check_default_pt_pcmu (e : Option SdpAgentError) :
    check_default_pt true { payload := 0, name := "PCMU/8000" } e = some (true, e) := by
  have h : rtpmaps_at 0 = some (some "PCMU/8000/1") := by decide
  have h2 : g_str_has_prefix (some "PCMU/8000/1") (g_strsplit "PCMU/8000" '/').head? = true := by
    decide
  simp [check_default_pt, h, h2, DEFAULT_RTP_VIDEO_BASE_PAYLOAD]

theorem add_supported_fmts_loop_audio (m : GstSDPMedia) (e : Option SdpAgentError) :
    add_supported_fmts_loop true audio_fmts m e =
      some { ok := true, media := with_fmts m ["98", "99", "0"], error := e } := by
  have p98 : print_u 98 = "98" := by decide
  have p99 : print_u 99 = "99" := by decide
  have p0 : print_u 0 = "0" := by decide
  have n : G_N_ELEMENTS_rtpmaps = 35 := by decide
  simp [add_supported_fmts_loop, audio_fmts, check_default_pt_pcmu, gst_sdp_media_add_format,
    with_fmts, p98, p99, p0, n, DEFAULT_RTP_AUDIO_BASE_PAYLOAD]

theorem add_supported_fmts_loop_video (m : GstSDPMedia) (e : Option SdpAgentError) :
    add_supported_fmts_loop false video_fmts m e =
      some { ok := true, media := with_fmts m ["96", "97", "100", "101"], error := e } := by
  have p96 : print_u 96 = "96" := by decide
  have p97 : print_u 97 = "97" := by decide
  have p100 : print_u 100 = "100" := by decide
  have p101 : print_u 101 = "101" := by decide
  have n : G_N_ELEMENTS_rtpmaps = 35 := by decide
  simp [add_supported_fmts_loop, video_fmts, gst_sdp_media_add_format, with_fmts,
    p96, p97, p100, p101, n, DEFAULT_RTP_AUDIO_BASE_PAYLOAD]

theorem init_offer_accepts (handler : KmsSdpRtpAvpMediaHandler) (kind : String)
    (hk : kind = "audio" ∨ kind = "video") (e : Option SdpAgentError) :
    kms_sdp_rtp_avp_media_handler_init_offer handler (some kind) gst_sdp_media_new.2 e =
      { ok := true, media := offer_after_init handler kind, error := e } := by
  rcases hk with hk | hk <;> subst hk <;>
    simp [kms_sdp_rtp_avp_media_handler_init_offer, gst_sdp_media_new, gst_sdp_media_set_media,
      gst_sdp_media_set_proto, gst_sdp_media_set_port_info, offer_after_init, SDP_AUDIO_MEDIA,
      SDP_VIDEO_MEDIA]

theorem add_offer_attributes_audio (ext : External) (handler : KmsSdpRtpAvpMediaHandler)
    (e : Option SdpAgentError) :
    kms_sdp_rtp_avp_media_handler_add_offer_attributes builtin ext handler
        (offer_after_init handler "audio") e =
      some (ext.parent_add_offer_attributes handler
        (offer_before_chain_up handler "audio" ["98", "99", "0"]
          ["98 OPUS/48000/2", "99 AMR/8000/1"]) e) := by
  have hr : (["98", "99", "0"].map (offer_rtpmaps_of audio_fmts)).flatten =
      [rtpmap_attr "98 OPUS/48000/2", rtpmap_attr "99 AMR/8000/1"] := by decide
  have hs : select_maps builtin (some "audio") = some (audio_fmts, true) := by decide
  have h1 : kms_sdp_rtp_avp_media_handler_add_supported_fmts builtin
      (offer_after_init handler "audio") e =
      some { ok := true, media := with_fmts (offer_after_init handler "audio") ["98", "99", "0"],
             error := e } := by
    simp only [kms_sdp_rtp_avp_media_handler_add_supported_fmts, offer_after_init, hs,
      add_supported_fmts_loop_audio]
  have h3 : kms_sdp_rtp_avp_media_handler_add_rtpmap_attrs builtin
      (with_attributes (with_fmts (offer_after_init handler "audio") ["98", "99", "0"])
        (handler.extmaps.map offer_extmap_of)) e =
      some { ok := true,
             media := offer_before_chain_up handler "audio" ["98", "99", "0"]
               ["98 OPUS/48000/2", "99 AMR/8000/1"],
             error := e } := by
    simp only [kms_sdp_rtp_avp_media_handler_add_rtpmap_attrs, offer_after_init, with_fmts,
      with_attributes, hs, List.nil_append]
    rw [add_rtpmap_attrs_loop_defined _ _ (by decide), hr]
    simp [offer_before_chain_up, with_attributes]
  simp only [kms_sdp_rtp_avp_media_handler_add_offer_attributes, h1,
    kms_sdp_rtp_avp_media_handler_add_extmaps, add_extmaps_loop_eq, h3]
  simp

theorem add_offer_attributes_video (ext : External) (handler : KmsSdpRtpAvpMediaHandler)
    (e : Option SdpAgentError) :
    kms_sdp_rtp_avp_media_handler_add_offer_attributes builtin ext handler
        (offer_after_init handler "video") e =
      some (ext.parent_add_offer_attributes handler
        (offer_before_chain_up handler "video" ["96", "97", "100", "101"]
          ["96 H263-1998/90000", "97 VP8/90000", "100 MP4V-ES/90000", "101 H264/90000"]) e) := by
  have hr : (["96", "97", "100", "101"].map (offer_rtpmaps_of video_fmts)).flatten =
      [rtpmap_attr "96 H263-1998/90000", rtpmap_attr "97 VP8/90000",
        rtpmap_attr "100 MP4V-ES/90000", rtpmap_attr "101 H264/90000"] := by decide
  have hs : select_maps builtin (some "video") = some (video_fmts, false) := by decide
  have h1 : kms_sdp_rtp_avp_media_handler_add_supported_fmts builtin
      (offer_after_init handler "video") e =
      some { ok := true,
             media := with_fmts (offer_after_init handler "video") ["96", "97", "100", "101"],
             error := e } := by
    simp only [kms_sdp_rtp_avp_media_handler_add_supported_fmts, offer_after_init, hs,
      add_supported_fmts_loop_video]
  have h3 : kms_sdp_rtp_avp_media_handler_add_rtpmap_attrs builtin
      (with_attributes (with_fmts (offer_after_init handler "video") ["96", "97", "100", "101"])
        (handler.extmaps.map offer_extmap_of)) e =
      some { ok := true,
             media := offer_before_chain_up handler "video" ["96", "97", "100", "101"]
               ["96 H263-1998/90000", "97 VP8/90000", "100 MP4V-ES/90000", "101 H264/90000"],
             error := e } := by
    simp only [kms_sdp_rtp_avp_media_handler_add_rtpmap_attrs, offer_after_init, with_fmts,
      with_attributes, hs, List.nil_append]
    rw [add_rtpmap_attrs_loop_defined _ _ (by decide), hr]
    simp [offer_before_chain_up, with_attributes]
  simp only [kms_sdp_rtp_avp_media_handler_add_offer_attributes, h1,
    kms_sdp_rtp_avp_media_handler_add_extmaps, add_extmaps_loop_eq, h3]
  simp

theorem create_offer_unfold (cat : Catalog) (ext : External) (handler : KmsSdpRtpAvpMediaHandler)
    (kind : String) (hk : kind = "audio" ∨ kind = "video") (r : Ret)
    (h : kms_sdp_rtp_avp_media_handler_add_offer_attributes cat ext handler
      (offer_after_init handler kind) none = some r) :
    kms_sdp_rtp_avp_media_handler_create_offer cat ext handler (some kind) =
      some (created_of r) := by
  have h0 := init_offer_accepts handler kind hk none
  simp only [gst_sdp_media_new] at h0
  simp only [kms_sdp_rtp_avp_media_handler_create_offer, gst_sdp_media_new, h0, h, created_of]
  cases hr : r.ok <;> simp

theorem create_offer_audio (ext : External) (handler : KmsSdpRtpAvpMediaHandler) :
    kms_sdp_rtp_avp_media_handler_create_offer builtin ext handler (some "audio") =
      some (created_of (ext.parent_add_offer_attributes handler
        (offer_before_chain_up handler "audio" ["98", "99", "0"]
          ["98 OPUS/48000/2", "99 AMR/8000/1"]) none)) :=
  create_offer_unfold builtin ext handler "audio" (Or.inl rfl) _
    (add_offer_attributes_audio ext handler none)

theorem create_offer_video (ext : External) (handler : KmsSdpRtpAvpMediaHandler) :
    kms_sdp_rtp_avp_media_handler_create_offer builtin ext handler (some "video") =
      some (created_of (ext.parent_add_offer_attributes handler
        (offer_before_chain_up handler "video" ["96", "97", "100", "101"]
          ["96 H263-1998/90000", "97 VP8/90000", "100 MP4V-ES/90000", "101 H264/90000"]) none)) :=
  create_offer_unfold builtin ext handler "video" (Or.inr rfl) _
    (add_offer_attributes_video ext handler none)

theorem create_offer_other (cat : Catalog) (ext : External) (handler : KmsSdpRtpAvpMediaHandler)
    (media : Option String) (ha : media ≠ some "audio") (hv : media ≠ some "video") :
    kms_sdp_rtp_avp_media_handler_create_offer cat ext handler media =
      some { media := none, error := some SDP_AGENT_INVALID_MEDIA } := by
  simp [kms_sdp_rtp_avp_media_handler_create_offer, gst_sdp_media_new,
    kms_sdp_rtp_avp_media_handler_init_offer, SDP_AUDIO_MEDIA, SDP_VIDEO_MEDIA, ha, hv,
    g_set_error]

theorem add_supported_fmts_frame (cat : Catalog) (m : GstSDPMedia) (e : Option SdpAgentError)
    (r : Ret) (h : kms_sdp_rtp_avp_media_handler_add_supported_fmts cat m e = some r) :
    ∃ l, r.media = with_fmts m l := by
  unfold kms_sdp_rtp_avp_media_handler_add_supported_fmts at h
  split at h
  · simp only [Option.some.injEq] at h
    exact ⟨[], by subst h; simp [with_fmts]⟩
  · exact add_supported_fmts_loop_frame _ _ _ _ _ h

theorem add_rtpmap_attrs_frame (cat : Catalog) (m : GstSDPMedia) (e : Option SdpAgentError)
    (r : Ret) (h : kms_sdp_rtp_avp_media_handler_add_rtpmap_attrs cat m e = some r) :
    ∃ l, r.media = with_attributes m l := by
  unfold kms_sdp_rtp_avp_media_handler_add_rtpmap_attrs at h
  split at h
  · simp only [Option.some.injEq] at h
    exact ⟨[], by subst h; simp [with_attributes]⟩
  · exact ⟨_, by rw [add_rtpmap_attrs_loop_eq _ _ _ _ _ h]⟩

theorem add_offer_attributes_frame (cat : Catalog) (ext : External) (hg : ext.Generic)
    (handler : KmsSdpRtpAvpMediaHandler) (m : GstSDPMedia) (e : Option SdpAgentError) (r : Ret)
    (h : kms_sdp_rtp_avp_media_handler_add_offer_attributes cat ext handler m e = some r) :
    same_m_line r.media m := by
  unfold kms_sdp_rtp_avp_media_handler_add_offer_attributes at h
  split at h
  · exact absurd h (by simp)
  · rename_i r1 h1
    obtain ⟨l1, hl1⟩ := add_supported_fmts_frame cat m e r1 h1
    have s1 : same_m_line r1.media m := by rw [hl1]; simp [same_m_line, with_fmts]
    split at h
    · simp only [Option.some.injEq] at h
      subst h; exact s1
    · simp only [kms_sdp_rtp_avp_media_handler_add_extmaps, add_extmaps_loop_eq] at h
      split at h
      · simp only [Option.some.injEq] at h
        subst h
        simpa [same_m_line, with_attributes] using s1
      · split at h
        · exact absurd h (by simp)
        · rename_i r3 h3
          obtain ⟨l3, hl3⟩ := add_rtpmap_attrs_frame cat _ _ r3 h3
          have s3 : same_m_line r3.media m := by
            rw [hl3]; simpa [same_m_line, with_attributes] using s1
          split at h
          · simp only [Option.some.injEq] at h
            subst h; exact s3
          · simp only [Option.some.injEq] at h
            subst h
            obtain ⟨g1, g2, g3, g4, -⟩ := hg.offer_step handler r3.media r3.error
            obtain ⟨t1, t2, t3, t4⟩ := s3
            exact ⟨g1.trans t1, g2.trans t2, g3.trans t3, g4.trans t4⟩

theorem init_offer_ok_iff (handler : KmsSdpRtpAvpMediaHandler) (media : Option String)
    (m : GstSDPMedia) (e : Option SdpAgentError) :
    (kms_sdp_rtp_avp_media_handler_init_offer handler media m e).ok = true ↔
      (media = some "audio" ∨ media = some "video") := by
  by_cases ha : media = some "audio"
  · simp [kms_sdp_rtp_avp_media_handler_init_offer, gst_sdp_media_set_media,
      gst_sdp_media_set_proto, gst_sdp_media_set_port_info, SDP_AUDIO_MEDIA, SDP_VIDEO_MEDIA, ha]
  · by_cases hv : media = some "video"
    · simp [kms_sdp_rtp_avp_media_handler_init_offer, gst_sdp_media_set_media,
        gst_sdp_media_set_proto, gst_sdp_media_set_port_info, SDP_AUDIO_MEDIA, SDP_VIDEO_MEDIA, hv]
    · simp [kms_sdp_rtp_avp_media_handler_init_offer, SDP_AUDIO_MEDIA, SDP_VIDEO_MEDIA, ha, hv]

/-- An offer returned by `create_offer` was asked for audio or video and has the
m-line fields `init_offer` wrote. -/
theorem create_offer_some (cat : Catalog) (ext : External) (hg : ext.Generic)
    (handler : KmsSdpRtpAvpMediaHandler) (media : Option String) (c : Created) (m : GstSDPMedia)
    (h : kms_sdp_rtp_avp_media_handler_create_offer cat ext handler media = some c)
    (hm : c.media = some m) :
    ∃ kind, media = some kind ∧ (kind = "audio" ∨ kind = "video") ∧
      same_m_line m (offer_after_init handler kind) := by
  by_cases hk : media = some "audio" ∨ media = some "video"
  · have hk2 : ∃ kind, media = some kind ∧ (kind = "audio" ∨ kind = "video") := by
      rcases hk with hk | hk
      · exact ⟨"audio", hk, Or.inl rfl⟩
      · exact ⟨"video", hk, Or.inr rfl⟩
    obtain ⟨kind, hkm, hkind⟩ := hk2
    subst hkm
    refine ⟨kind, rfl, hkind, ?_⟩
    cases hr : kms_sdp_rtp_avp_media_handler_add_offer_attributes cat ext handler
        (offer_after_init handler kind) none with
    | none =>
      have h0 := init_offer_accepts handler kind hkind none
      simp only [gst_sdp_media_new] at h0
      simp [kms_sdp_rtp_avp_media_handler_create_offer, gst_sdp_media_new, h0, hr] at h
    | some r =>
      rw [create_offer_unfold cat ext handler kind hkind r hr] at h
      simp only [Option.some.injEq] at h
      subst h
      have hf := add_offer_attributes_frame cat ext hg handler _ none r hr
      unfold created_of at hm
      split at hm
      · simp only [Option.some.injEq] at hm
        subst hm; exact hf
      · exact absurd hm (by simp)
  · have ha : media ≠ some "audio" := fun hh => hk (Or.inl hh)
    have hv : media ≠ some "video" := fun hh => hk (Or.inr hh)
    rw [create_offer_other cat ext handler media ha hv] at h
    simp only [Option.some.injEq] at h
    subst h
    exact absurd hm (by simp)

theorem attribute_vals_offer_before_chain_up (handler : KmsSdpRtpAvpMediaHandler) (kind : String)
    (fmts vals : List String) :
    attribute_vals (offer_before_chain_up handler kind fmts vals) "rtpmap" = vals := by
  have h1 : (handler.extmaps.map offer_extmap_of).filter (fun a => decide (a.key = "rtpmap")) = [] := by
    rw [List.filter_eq_nil_iff]
    intro a ha
    obtain ⟨p, -, rfl⟩ := List.mem_map.mp ha
    simp [offer_extmap_of]
  have h2 : (vals.map rtpmap_attr).filter (fun a => decide (a.key = "rtpmap")) = vals.map rtpmap_attr := by
    rw [List.filter_eq_self]
    intro a ha
    obtain ⟨p, -, rfl⟩ := List.mem_map.mp ha
    simp [rtpmap_attr]
  simp only [attribute_vals, offer_before_chain_up, List.filter_append, h1, h2, List.nil_append,
    List.map_map]
  have h3 : ((fun a => a.value) ∘ rtpmap_attr) = id := by
    funext v; simp [rtpmap_attr]
  rw [h3, List.map_id]

/-! ## Lemmas: answer construction -/

theorem add_answer_fmts_loop_eq (cat : Catalog) (offer : GstSDPMedia) (l : List String) :
    ∀ (a : GstSDPMedia) (e : Option SdpAgentError) (r : Ret),
      add_answer_fmts_loop cat offer l a e = some r →
      r = { ok := true,
            media := with_fmts a
              (l.filter (fun fmt => decide (format_supported cat offer fmt = some true))),
            error := e } := by
  induction l with
  | nil =>
    intro a e r h
    simp only [add_answer_fmts_loop, Option.some.injEq] at h
    subst h
    simp [with_fmts]
  | cons f fs ih =>
    intro a e r h
    unfold add_answer_fmts_loop at h
    cases hf : format_supported cat offer f with
    | none => rw [hf] at h; exact absurd h (by simp)
    | some b =>
      cases b with
      | false =>
        rw [hf] at h
        simp only at h
        rw [ih _ _ _ h]
        simp [hf]
      | true =>
        rw [hf] at h
        simp only [gst_sdp_media_add_format] at h
        rw [ih _ _ _ h]
        simp [hf, with_fmts]

theorem add_supported_extmaps_inner_eq (attr offer_uri : String) (t : List (Nat × String)) :
    ∀ (a : GstSDPMedia) (e : Option SdpAgentError),
      add_supported_extmaps_inner attr offer_uri t a e =
        { ok := true,
          media := with_attributes a
            ((t.filter (fun p => decide (offer_uri = p.2))).map (fun _ => extmap_attr attr)),
          error := e } := by
  induction t with
  | nil => intro a e; simp [add_supported_extmaps_inner, with_attributes]
  | cons x xs ih =>
    intro a e
    obtain ⟨id, uri⟩ := x
    by_cases hx : offer_uri = uri
    · subst hx
      simp [add_supported_extmaps_inner, gst_sdp_media_add_attribute, ih, with_attributes,
        extmap_attr]
    · simp [add_supported_extmaps_inner, ih, hx, with_attributes]

theorem add_supported_extmaps_loop_eq (self : KmsSdpRtpAvpMediaHandler) (l : List String) :
    ∀ (a : GstSDPMedia) (e : Option SdpAgentError) (r : Ret),
      add_supported_extmaps_loop self l a e = some r → r.ok = true →
      r = { ok := true,
            media := with_attributes a ((answer_extmap_vals self l).map extmap_attr),
            error := e } ∧
      ∀ attr ∈ l, ∃ uri, strv_index (g_strsplit attr ' ') 1 = some (some uri) := by
  induction l with
  | nil =>
    intro a e r h _
    simp only [add_supported_extmaps_loop, Option.some.injEq] at h
    subst h
    simp [with_attributes, answer_extmap_vals]
  | cons x xs ih =>
    intro a e r h hok
    unfold add_supported_extmaps_loop at h
    dsimp only at h
    cases hx : strv_index (g_strsplit x ' ') 1 with
    | none => rw [hx] at h; exact absurd h (by simp)
    | some u =>
      cases u with
      | none =>
        rw [hx] at h
        simp only [Option.some.injEq] at h
        subst h
        exact absurd hok (by simp)
      | some uri =>
        rw [hx] at h
        simp only [add_supported_extmaps_inner_eq, if_true] at h
        obtain ⟨h1, h2⟩ := ih _ _ _ h hok
        constructor
        · rw [h1]
          simp [with_attributes, answer_extmap_vals, answer_extmap_vals_of, hx]
        · intro attr hattr
          rcases List.mem_cons.mp hattr with hh | hh
          · subst hh; exact ⟨uri, hx⟩
          · exact h2 attr hh

theorem add_supported_rtpmap_attrs_loop_eq (cat : Catalog) (offer : GstSDPMedia)
    (l : List String) :
    ∀ (a : GstSDPMedia) (e : Option SdpAgentError) (r : Ret),
      add_supported_rtpmap_attrs_loop cat offer l a e = some r → r.ok = true →
      r = { ok := true,
            media := with_attributes a ((answer_rtpmap_vals offer l).map rtpmap_attr),
            error := e } ∧
      ∀ fmt ∈ l, sdp_utils_get_attr_map_value offer "rtpmap" fmt = none →
        fmt_static_payload_type fmt = true := by
  induction l with
  | nil =>
    intro a e r h _
    simp only [add_supported_rtpmap_attrs_loop, Option.some.injEq] at h
    subst h
    simp [with_attributes, answer_rtpmap_vals]
  | cons f fs ih =>
    intro a e r h hok
    unfold add_supported_rtpmap_attrs_loop at h
    cases hv : sdp_utils_get_attr_map_value offer "rtpmap" f with
    | some val =>
      rw [hv] at h
      simp only [gst_sdp_media_add_attribute] at h
      obtain ⟨h1, h2⟩ := ih _ _ _ h hok
      constructor
      · rw [h1]
        simp [with_attributes, answer_rtpmap_vals, hv, rtpmap_attr]
      · intro fmt hfmt hnone
        rcases List.mem_cons.mp hfmt with hh | hh
        · subst hh; rw [hv] at hnone; exact absurd hnone (by simp)
        · exact h2 fmt hh hnone
    | none =>
      rw [hv] at h
      simp only at h
      cases hpt : atoi f with
      | none => rw [hpt] at h; exact absurd h (by simp)
      | some pt =>
        rw [hpt] at h
        simp only at h
        have hval : atoi_value f = pt := by
          unfold atoi at hpt
          split at hpt
          · simpa using hpt
          · exact absurd hpt (by simp)
        by_cases hb : in_default_pt_bound pt = true
        · rw [if_pos hb] at h
          cases ht : rtpmaps_at pt.toNat with
          | none => rw [ht] at h; exact absurd h (by simp)
          | some slot =>
            cases slot with
            | none =>
              rw [ht] at h
              simp only [Option.some.injEq] at h
              subst h
              exact absurd hok (by simp)
            | some name =>
              rw [ht] at h
              simp only at h
              by_cases hen : encoding_supported cat offer (some name) = true
              · rw [if_pos hen] at h
                obtain ⟨h1, h2⟩ := ih _ _ _ h hok
                constructor
                · rw [h1]
                  simp [answer_rtpmap_vals, hv]
                · intro fmt hfmt hnone
                  rcases List.mem_cons.mp hfmt with hh | hh
                  · subst hh
                    have h0 : 0 ≤ pt := by
                      simp only [in_default_pt_bound, Bool.and_eq_true, decide_eq_true_eq] at hb
                      exact hb.1
                    simp [fmt_static_payload_type, static_payload_type, hval, ht, h0]
                  · exact h2 fmt hh hnone
              · rw [if_neg hen] at h
                simp only [Option.some.injEq] at h
                subst h
                exact absurd hok (by simp)
        · rw [if_neg hb] at h
          simp only [Option.some.injEq] at h
          subst h
          exact absurd hok (by simp)

theorem add_answer_attributes_impl_eq (cat : Catalog) (ext : External)
    (handler : KmsSdpRtpAvpMediaHandler) (offer answer : GstSDPMedia)
    (e : Option SdpAgentError) (r : Ret)
    (h : kms_sdp_rtp_avp_media_handler_add_answer_attributes_impl cat ext handler offer answer e =
      some r)
    (hok : r.ok = true) :
    r.media = answer_after_steps cat handler offer
        (ext.parent_add_answer_attributes handler offer answer e).media ∧
      (∀ fmt ∈ r.media.fmts, sdp_utils_get_attr_map_value offer "rtpmap" fmt = none →
        fmt_static_payload_type fmt = true) ∧
      (∀ attr ∈ attribute_vals offer "extmap",
        ∃ uri, strv_index (g_strsplit attr ' ') 1 = some (some uri)) := by
  unfold kms_sdp_rtp_avp_media_handler_add_answer_attributes_impl at h
  dsimp only at h
  by_cases h0 : (ext.parent_add_answer_attributes handler offer answer e).ok = true
  · simp only [h0, Bool.not_true, Bool.false_eq_true, if_false] at h
    cases h1 : add_answer_fmts_loop cat offer offer.fmts
        (ext.parent_add_answer_attributes handler offer answer e).media
        (ext.parent_add_answer_attributes handler offer answer e).error with
    | none => rw [h1] at h; exact absurd h (by simp)
    | some r1 =>
      rw [h1] at h
      have hr1 := add_answer_fmts_loop_eq cat offer offer.fmts _ _ r1 h1
      subst hr1
      simp only [Bool.not_true, Bool.false_eq_true, if_false, gst_sdp_media_set_port_info,
        kms_sdp_rtp_avp_media_handler_add_supported_extmaps] at h
      split at h
      · exact absurd h (by simp)
      · rename_i r3 h3
        by_cases hok3 : r3.ok = true
        · simp only [hok3, Bool.not_true, Bool.false_eq_true, if_false] at h
          obtain ⟨e3, hx⟩ := add_supported_extmaps_loop_eq handler _ _ _ r3 h3 hok3
          subst e3
          simp only [add_supported_rtpmap_attrs] at h
          obtain ⟨e4, hs⟩ := add_supported_rtpmap_attrs_loop_eq cat offer _ _ _ r h hok
          refine ⟨?_, ?_, hx⟩
          · rw [e4]
            simp [answer_after_steps, answer_fmts, with_attributes, with_fmts]
          · intro fmt hfmt
            apply hs
            rw [e4] at hfmt
            simpa [with_attributes, with_fmts] using hfmt
        · simp only [hok3, Bool.not_false, if_true, Option.some.injEq] at h
          subst h
          exact absurd hok hok3
  · simp only [h0, Bool.not_false, if_true, Option.some.injEq] at h
    subst h
    exact absurd hok h0

theorem instersect_rtp_avp_media_attr_frame (ext : External)
    (handler : KmsSdpRtpAvpMediaHandler) (offer : GstSDPMedia) (attr : GstSDPAttribute)
    (a b : GstSDPMedia) (hab : same_negotiated a b) :
    same_negotiated (instersect_rtp_avp_media_attr ext handler offer attr a).2 b := by
  unfold instersect_rtp_avp_media_attr
  split
  · exact hab
  · rename_i hc
    simp only [kms_sdp_rtp_avp_media_handler_can_insert_attribute, Bool.not_eq_true] at hc
    have hkey : ¬ (attr.key = "rtpmap" ∨ attr.key = "extmap") := by
      intro hk
      simp [hk] at hc
    have hk1 : attr.key ≠ "rtpmap" := fun hh => hkey (Or.inl hh)
    have hk2 : attr.key ≠ "extmap" := fun hh => hkey (Or.inr hh)
    obtain ⟨h1, h2, h3, h4, h5, h6, h7⟩ := hab
    simp only [gst_sdp_media_add_attribute]
    refine ⟨h1, h2, h3, h4, h5, ?_, ?_⟩
    · rw [← h6]; simp [attribute_vals, List.filter_append, hk1]
    · rw [← h7]; simp [attribute_vals, List.filter_append, hk2]

theorem intersect_sdp_medias_frame (ext : External) (hg : ext.Generic)
    (handler : KmsSdpRtpAvpMediaHandler) (offer answer : GstSDPMedia)
    (e : Option SdpAgentError) :
    same_negotiated
      (kms_sdp_rtp_avp_media_handler_intersect_sdp_medias ext handler offer answer e).media
      answer := by
  have hP := hg.through_callback (fun a => same_negotiated a answer) offer
    (instersect_rtp_avp_media_attr ext handler offer) answer
    (fun attr a ha => instersect_rtp_avp_media_attr_frame ext handler offer attr a answer ha)
    ⟨rfl, rfl, rfl, rfl, rfl, rfl, rfl⟩
  unfold kms_sdp_rtp_avp_media_handler_intersect_sdp_medias
  split
  · rename_i a1 heq
    rw [heq] at hP
    exact hP
  · rename_i a1 heq
    rw [heq] at hP
    exact hP

theorem vals_of_key (k : String) (l : List String) :
    ((l.map (fun v => ({ key := k, value := v } : GstSDPAttribute))).filter
      (fun a => decide (a.key = k))).map (fun a => a.value) = l := by
  induction l with
  | nil => rfl
  | cons v vs ih => simpa using ih

theorem vals_of_other_key (k k2 : String) (hk : k ≠ k2) (l : List String) :
    (l.map (fun v => ({ key := k, value := v } : GstSDPAttribute))).filter
      (fun a => decide (a.key = k2)) = [] := by
  induction l with
  | nil => rfl
  | cons v vs ih => simp [hk]

theorem vals_append_written (A : List GstSDPAttribute) (E R : List String) :
    ((A ++ (E.map extmap_attr ++ R.map rtpmap_attr)).filter
        (fun a => decide (a.key = "rtpmap"))).map (fun a => a.value) =
      (A.filter (fun a => decide (a.key = "rtpmap"))).map (fun a => a.value) ++ R ∧
    ((A ++ (E.map extmap_attr ++ R.map rtpmap_attr)).filter
        (fun a => decide (a.key = "extmap"))).map (fun a => a.value) =
      (A.filter (fun a => decide (a.key = "extmap"))).map (fun a => a.value) ++ E := by
  have e1 := vals_of_key "rtpmap" R
  have e2 := vals_of_other_key "extmap" "rtpmap" (by decide) E
  have e3 := vals_of_key "extmap" E
  have e4 := vals_of_other_key "rtpmap" "extmap" (by decide) R
  have r1 : rtpmap_attr = (fun v => ({ key := "rtpmap", value := v } : GstSDPAttribute)) := rfl
  have r2 : extmap_attr = (fun v => ({ key := "extmap", value := v } : GstSDPAttribute)) := rfl
  constructor
  · simp only [List.filter_append, List.map_append]
    rw [r1, r2, e1, e2]
    simp
  · simp only [List.filter_append, List.map_append]
    rw [r1, r2, e3, e4]
    simp

theorem attribute_vals_answer_after_steps (cat : Catalog) (self : KmsSdpRtpAvpMediaHandler)
    (offer a0 : GstSDPMedia) :
    attribute_vals (answer_after_steps cat self offer a0) "rtpmap" =
        attribute_vals a0 "rtpmap" ++ answer_rtpmap_vals offer (answer_fmts cat offer a0) ∧
      attribute_vals (answer_after_steps cat self offer a0) "extmap" =
        attribute_vals a0 "extmap" ++ answer_extmap_vals self (attribute_vals offer "extmap") :=
  vals_append_written a0.attributes (answer_extmap_vals self (attribute_vals offer "extmap"))
    (answer_rtpmap_vals offer (answer_fmts cat offer a0))

theorem init_answer_ok (handler : KmsSdpRtpAvpMediaHandler) (offer : GstSDPMedia)
    (e : Option SdpAgentError)
    (h : (kms_sdp_rtp_avp_media_handler_init_answer handler offer gst_sdp_media_new.2 e).ok = true) :
    (offer.media = some "audio" ∨ offer.media = some "video") ∧ handler.proto = offer.proto ∧
      kms_sdp_rtp_avp_media_handler_init_answer handler offer gst_sdp_media_new.2 e =
        { ok := true, media := answer_after_init offer, error := e } := by
  by_cases hk : offer.media ≠ some "audio" ∧ offer.media ≠ some "video"
  · simp [kms_sdp_rtp_avp_media_handler_init_answer, SDP_AUDIO_MEDIA, SDP_VIDEO_MEDIA, hk] at h
  · have hk1 : offer.media = some "audio" ∨ offer.media = some "video" := by
      by_contra hc
      exact hk ⟨fun hh => hc (Or.inl hh), fun hh => hc (Or.inr hh)⟩
    by_cases hp : handler.proto = offer.proto
    · refine ⟨hk1, hp, ?_⟩
      have hk' : ¬ (offer.media ≠ some SDP_AUDIO_MEDIA ∧ offer.media ≠ some SDP_VIDEO_MEDIA) := hk
      simp only [kms_sdp_rtp_avp_media_handler_init_answer, hk', if_false, hp, ne_eq,
        not_true_eq_false, gst_sdp_media_set_media, gst_sdp_media_set_proto, gst_sdp_media_new,
        answer_after_init]
    · have hk' : ¬ (offer.media ≠ some SDP_AUDIO_MEDIA ∧ offer.media ≠ some SDP_VIDEO_MEDIA) := hk
      simp [kms_sdp_rtp_avp_media_handler_init_answer, hk', hp] at h

/-- An answer returned by `create_answer`: the offer was accepted by
`init_answer`, and the m-line, the formats and the `rtpmap` and `extmap` values
are those the handler computes from the offer. -/
theorem create_answer_some (cat : Catalog) (ext : External) (hg : ext.Generic)
    (handler : KmsSdpRtpAvpMediaHandler) (offer : GstSDPMedia) (c : Created) (m : GstSDPMedia)
    (h : kms_sdp_rtp_avp_media_handler_create_answer cat ext handler offer = some c)
    (hm : c.media = some m) :
    (offer.media = some "audio" ∨ offer.media = some "video") ∧ handler.proto = offer.proto ∧
      m.media = offer.media ∧ m.proto = offer.proto ∧
      m.port = (if m.fmts.length > 0 then 1 else 0) ∧ m.num_ports = 1 ∧
      m.fmts = offer.fmts.filter (fun fmt => decide (format_supported cat offer fmt = some true)) ∧
      attribute_vals m "rtpmap" = answer_rtpmap_vals offer m.fmts ∧
      attribute_vals m "extmap" = answer_extmap_vals handler (attribute_vals offer "extmap") ∧
      (∀ fmt ∈ m.fmts, sdp_utils_get_attr_map_value offer "rtpmap" fmt = none →
        fmt_static_payload_type fmt = true) ∧
      (∀ attr ∈ attribute_vals offer "extmap",
        ∃ uri, strv_index (g_strsplit attr ' ') 1 = some (some uri)) := by
  unfold kms_sdp_rtp_avp_media_handler_create_answer at h
  have hnew : gst_sdp_media_new = (GST_SDP_OK, gst_sdp_media_new.2) := rfl
  rw [hnew] at h
  dsimp only at h
  by_cases h1 : (kms_sdp_rtp_avp_media_handler_init_answer handler offer
      gst_sdp_media_new.2 none).ok = true
  · obtain ⟨hkind, hproto, hinit⟩ := init_answer_ok handler offer none h1
    rw [hinit] at h
    simp only [Bool.not_true, Bool.false_eq_true, if_false] at h
    split at h
    · exact absurd h (by simp)
    · rename_i r2 h2
      by_cases hok2 : r2.ok = true
      · simp only [hok2, Bool.not_true, Bool.false_eq_true, if_false] at h
        obtain ⟨hr2, hstat, huri⟩ :=
          add_answer_attributes_impl_eq cat ext handler offer _ none r2 h2 hok2
        have hfr := intersect_sdp_medias_frame ext hg handler offer r2.media r2.error
        split at h
        · simp only [Option.some.injEq] at h
          subst h
          exact absurd hm (by simp)
        · simp only [Option.some.injEq] at h
          subst h
          simp only [Option.some.injEq] at hm
          subst hm
          obtain ⟨f1, f2, f3, f4, f5, f6, f7⟩ := hfr
          obtain ⟨g1, g2, g3, g4, g5⟩ := hg.answer_step handler offer (answer_after_init offer) none
          obtain ⟨v1, v2⟩ := attribute_vals_answer_after_steps cat handler offer
            (ext.parent_add_answer_attributes handler offer (answer_after_init offer) none).media
          have g1' : (ext.parent_add_answer_attributes handler offer (answer_after_init offer)
              none).media.media = offer.media := g1
          have g2' : (ext.parent_add_answer_attributes handler offer (answer_after_init offer)
              none).media.proto = offer.proto := g2
          have g3' : (ext.parent_add_answer_attributes handler offer (answer_after_init offer)
              none).media.fmts = [] := g3
          have g4' : attribute_vals (ext.parent_add_answer_attributes handler offer
              (answer_after_init offer) none).media "rtpmap" = [] := g4
          have g5' : attribute_vals (ext.parent_add_answer_attributes handler offer
              (answer_after_init offer) none).media "extmap" = [] := g5
          generalize (ext.parent_add_answer_attributes handler offer (answer_after_init offer)
              none).media = a0 at hr2 v1 v2 g1' g2' g3' g4' g5'
          rw [g4'] at v1
          rw [g5'] at v2
          rw [← hr2] at v1 v2
          have hfm : r2.media.fmts =
              offer.fmts.filter (fun fmt => decide (format_supported cat offer fmt = some true)) := by
            rw [hr2]
            simp [answer_after_steps, answer_fmts, g3']
          have hfm2 : r2.media.fmts = answer_fmts cat offer a0 := by
            rw [hr2]; rfl
          refine ⟨hkind, hproto, ?_, ?_, ?_, ?_, ?_, ?_, ?_, ?_, huri⟩
          · rw [f1, hr2]; exact g1'
          · rw [f2, hr2]; exact g2'
          · rw [f3, f5, hr2]; rfl
          · rw [f4, hr2]; rfl
          · rw [f5, hfm]
          · rw [f6, f5, v1, hfm2]; rfl
          · rw [f7, v2]; rfl
          · intro fmt hfmt
            rw [f5] at hfmt
            exact hstat fmt hfmt
      · simp only [hok2, Bool.not_false, if_true, Option.some.injEq] at h
        subst h
        exact absurd hm (by simp)
  · simp only [h1, Bool.not_false, if_true, Option.some.injEq] at h
    subst h
    exact absurd hm (by simp)

theorem add_answer_fmts_loop_defined (cat : Catalog) (offer : GstSDPMedia) (l : List String) :
    ∀ (a : GstSDPMedia) (e : Option SdpAgentError) (r : Ret),
      add_answer_fmts_loop cat offer l a e = some r →
      ∀ fmt ∈ l, format_supported cat offer fmt ≠ none := by
  induction l with
  | nil => intro a e r _ fmt hfmt; exact absurd hfmt (by simp)
  | cons f fs ih =>
    intro a e r h fmt hfmt
    unfold add_answer_fmts_loop at h
    cases hf : format_supported cat offer f with
    | none => rw [hf] at h; exact absurd h (by simp)
    | some b =>
      rw [hf] at h
      rcases List.mem_cons.mp hfmt with hh | hh
      · subst hh; rw [hf]; simp
      · cases b with
        | false => exact ih _ _ _ h fmt hh
        | true =>
          simp only [gst_sdp_media_add_format] at h
          exact ih _ _ _ h fmt hh

theorem add_answer_attributes_impl_defined (cat : Catalog) (ext : External)
    (handler : KmsSdpRtpAvpMediaHandler) (offer answer : GstSDPMedia)
    (e : Option SdpAgentError) (r : Ret)
    (h : kms_sdp_rtp_avp_media_handler_add_answer_attributes_impl cat ext handler offer answer e =
      some r)
    (hok : r.ok = true) :
    ∀ fmt ∈ offer.fmts, format_supported cat offer fmt ≠ none := by
  unfold kms_sdp_rtp_avp_media_handler_add_answer_attributes_impl at h
  dsimp only at h
  by_cases h0 : (ext.parent_add_answer_attributes handler offer answer e).ok = true
  · simp only [h0, Bool.not_true, Bool.false_eq_true, if_false] at h
    cases h1 : add_answer_fmts_loop cat offer offer.fmts
        (ext.parent_add_answer_attributes handler offer answer e).media
        (ext.parent_add_answer_attributes handler offer answer e).error with
    | none => rw [h1] at h; exact absurd h (by simp)
    | some r1 => exact add_answer_fmts_loop_defined cat offer offer.fmts _ _ r1 h1
  · simp only [h0, Bool.not_false, if_true, Option.some.injEq] at h
    subst h
    exact absurd hok h0

theorem create_answer_offer1 :
    kms_sdp_rtp_avp_media_handler_create_answer builtin base handler1 offer1 =
      some { media := some answer1, error := none } := by
  decide

theorem mem_answer_extmap_vals_of (self : KmsSdpRtpAvpMediaHandler) (attr v : String) :
    v ∈ answer_extmap_vals_of self attr ↔
      v = attr ∧ ∃ p ∈ self.extmaps, strv_index (g_strsplit attr ' ') 1 = some (some p.2) := by
  unfold answer_extmap_vals_of
  split
  · rename_i offer_uri huri
    simp only [List.mem_map, List.mem_filter, decide_eq_true_eq]
    constructor
    · rintro ⟨p, ⟨hp, hu⟩, hv⟩
      exact ⟨hv.symm, p, hp, by rw [huri, hu]⟩
    · rintro ⟨hv, p, hp, hu⟩
      rw [huri] at hu
      simp only [Option.some.injEq] at hu
      exact ⟨p, ⟨hp, hu⟩, hv.symm⟩
  · rename_i hno
    constructor
    · intro hv
      exact absurd hv (by simp)
    · rintro ⟨-, p, -, hu⟩
      exact absurd hu (hno p.2)

theorem mem_answer_extmap_vals (self : KmsSdpRtpAvpMediaHandler) (l : List String) (v : String) :
    v ∈ answer_extmap_vals self l ↔
      v ∈ l ∧ ∃ p ∈ self.extmaps, strv_index (g_strsplit v ' ') 1 = some (some p.2) := by
  simp only [answer_extmap_vals, List.mem_flatten, List.mem_map]
  constructor
  · rintro ⟨vs, ⟨attr, hattr, rfl⟩, hv⟩
    obtain ⟨rfl, hp⟩ := (mem_answer_extmap_vals_of self attr v).mp hv
    exact ⟨hattr, hp⟩
  · rintro ⟨hv, hp⟩
    exact ⟨_, ⟨v, hv, rfl⟩, (mem_answer_extmap_vals_of self v v).mpr ⟨rfl, hp⟩⟩

/-- Looking a format up among the values found for the formats `l` gives what
looking it up in the full list gives, for a format of `l`. -/
theorem find_among_found (V l : List String) (f : String) (hf : f ∈ l) :
    (l.filterMap (fun g => V.find? (fun v => decide ((g_strsplit v ' ').head? = some g)))).find?
        (fun v => decide ((g_strsplit v ' ').head? = some f)) =
      V.find? (fun v => decide ((g_strsplit v ' ').head? = some f)) := by
  have hmem : ∀ y ∈ l.filterMap
      (fun g => V.find? (fun v => decide ((g_strsplit v ' ').head? = some g))),
      (g_strsplit y ' ').head? = some f →
        V.find? (fun v => decide ((g_strsplit v ' ').head? = some f)) = some y := by
    intro y hy hty
    obtain ⟨g, -, hg⟩ := List.mem_filterMap.mp hy
    have hgy := List.find?_some hg
    simp only [decide_eq_true_eq] at hgy
    rw [hty] at hgy
    simp only [Option.some.injEq] at hgy
    subst hgy
    exact hg
  cases hV : V.find? (fun v => decide ((g_strsplit v ' ').head? = some f)) with
  | none =>
    rw [List.find?_eq_none]
    intro y hy hty
    simp only [decide_eq_true_eq] at hty
    have := hmem y hy hty
    rw [hV] at this
    exact absurd this (by simp)
  | some v =>
    have hvY : v ∈ l.filterMap
        (fun g => V.find? (fun v => decide ((g_strsplit v ' ').head? = some g))) :=
      List.mem_filterMap.mpr ⟨f, hf, hV⟩
    have hpv := List.find?_some hV
    cases hY : (l.filterMap
        (fun g => V.find? (fun v => decide ((g_strsplit v ' ').head? = some g)))).find?
        (fun v => decide ((g_strsplit v ' ').head? = some f)) with
    | none =>
      rw [List.find?_eq_none] at hY
      exact absurd hpv (hY v hvY)
    | some y =>
      have hy := List.mem_of_find?_eq_some hY
      have hpy := List.find?_some hY
      simp only [decide_eq_true_eq] at hpy
      have := hmem y hy hpy
      rw [hV] at this
      rw [this]

theorem create_offer_audio_new :
    kms_sdp_rtp_avp_media_handler_create_offer builtin base kms_sdp_rtp_avp_media_handler_new
      (some "audio") = some { media := some audio_offer, error := none } := by
  rw [create_offer_audio]
  rfl

theorem add_answer_fmts_loop_none_supported (cat : Catalog) (offer : GstSDPMedia)
    (l : List String) (hl : ∀ fmt ∈ l, format_supported cat offer fmt = some false) :
    ∀ (a : GstSDPMedia) (e : Option SdpAgentError),
      add_answer_fmts_loop cat offer l a e = some { ok := true, media := a, error := e } := by
  induction l with
  | nil => intro a e; simp [add_answer_fmts_loop]
  | cons f fs ih =>
    intro a e
    unfold add_answer_fmts_loop
    rw [hl f (List.mem_cons_self _ _)]
    exact ih (fun fmt hfmt => hl fmt (List.mem_cons_of_mem _ hfmt)) a e

theorem add_supported_extmaps_loop_defined (self : KmsSdpRtpAvpMediaHandler) (l : List String)
    (hl : ∀ attr ∈ l, ∃ uri, strv_index (g_strsplit attr ' ') 1 = some (some uri)) :
    ∀ (a : GstSDPMedia) (e : Option SdpAgentError),
      add_supported_extmaps_loop self l a e =
        some { ok := true,
               media := with_attributes a ((answer_extmap_vals self l).map extmap_attr),
               error := e } := by
  induction l with
  | nil => intro a e; simp [add_supported_extmaps_loop, with_attributes, answer_extmap_vals]
  | cons x xs ih =>
    intro a e
    obtain ⟨uri, hx⟩ := hl x (List.mem_cons_self _ _)
    have ihx := ih (fun attr hattr => hl attr (List.mem_cons_of_mem _ hattr))
    unfold add_supported_extmaps_loop
    dsimp only
    rw [hx]
    simp only [add_supported_extmaps_inner_eq, if_true]
    rw [ihx]
    simp [with_attributes, answer_extmap_vals, answer_extmap_vals_of, hx]

theorem offer_unsupported_uris :
    ∀ v ∈ attribute_vals offer_unsupported "extmap",
      ∃ uri, strv_index (g_strsplit v ' ') 1 = some (some uri) := by
  intro v hv
  have hvals : attribute_vals offer_unsupported "extmap" = ["1 urn:example:ext"] := by decide
  rw [hvals, List.mem_singleton] at hv
  subst hv
  exact ⟨"urn:example:ext", by decide⟩

theorem in_static_range_of_static_payload_type (pt : Int)
    (h : static_payload_type pt = true) : in_static_range pt = true := by
  simp only [static_payload_type, Bool.and_eq_true, decide_eq_true_eq] at h
  obtain ⟨h0, h1⟩ := h
  simp only [in_static_range, Bool.and_eq_true, decide_eq_true_eq]
  refine ⟨h0, ?_⟩
  by_contra hlt
  have hge : rtpmaps.length ≤ pt.toNat := Nat.le_of_not_lt hlt
  have hnone : rtpmaps_at pt.toNat = none := by
    unfold rtpmaps_at
    exact List.get?_eq_none.mpr hge
  rw [hnone] at h1
  exact absurd h1 (by simp)

theorem create_answer_offer_mixed :
    kms_sdp_rtp_avp_media_handler_create_answer builtin base handler1 offer_mixed =
      some { media := some answer_mixed, error := none } := by
  decide

theorem splitChars_ne_nil (d : Char) (cs : List Char) : splitChars d cs ≠ [] := by
  induction cs with
  | nil => simp [splitChars]
  | cons c cs ih =>
    unfold splitChars
    split
    · simp
    · split
      · simp
      · simp

theorem strv_index_one_defined (w : String) (hw : w ≠ "") :
    ∃ t, strv_index (g_strsplit w ' ') 1 = some t := by
  have hd : w.data ≠ [] := by
    intro h
    apply hw
    cases w
    simp only at h
    subst h
    rfl
  have hlen : 1 ≤ (g_strsplit w ' ').length := by
    simp only [g_strsplit, hd, if_false, List.length_map]
    exact List.length_pos.mpr (splitChars_ne_nil ' ' w.data)
  unfold strv_index
  by_cases h1 : 1 < (g_strsplit w ' ').length
  · exact ⟨_, by rw [if_pos h1]⟩
  · have h2 : 1 = (g_strsplit w ' ').length := by omega
    exact ⟨none, by rw [if_neg h1, if_pos h2]⟩

theorem add_supported_extmaps_loop_no_uri (self : KmsSdpRtpAvpMediaHandler) (l : List String)
    (hne : ∀ w ∈ l, w ≠ "")
    (hno : ∃ v ∈ l, strv_index (g_strsplit v ' ') 1 = some none) :
    ∀ (a : GstSDPMedia) (e : Option SdpAgentError),
      ∃ r, add_supported_extmaps_loop self l a e = some r ∧ r.ok = false ∧
        r.error = g_set_error e SDP_AGENT_UNEXPECTED_ERROR := by
  induction l with
  | nil =>
    obtain ⟨v, hv, -⟩ := hno
    exact absurd hv (by simp)
  | cons x xs ih =>
    intro a e
    obtain ⟨t, ht⟩ := strv_index_one_defined x (hne x (List.mem_cons_self _ _))
    unfold add_supported_extmaps_loop
    dsimp only
    rw [ht]
    cases t with
    | none => exact ⟨_, rfl, rfl, rfl⟩
    | some uri =>
      simp only [add_supported_extmaps_inner_eq, if_true]
      apply ih (fun w hw => hne w (List.mem_cons_of_mem _ hw))
      obtain ⟨v, hv, hvn⟩ := hno
      rcases List.mem_cons.mp hv with hh | hh
      · subst hh
        rw [ht] at hvn
        exact absurd hvn (by simp)
      · exact ⟨v, hh, hvn⟩

theorem create_answer_uris (cat : Catalog) (ext : External)
    (handler : KmsSdpRtpAvpMediaHandler) (offer : GstSDPMedia) (c : Created) (m : GstSDPMedia)
    (h : kms_sdp_rtp_avp_media_handler_create_answer cat ext handler offer = some c)
    (hm : c.media = some m) :
    ∀ attr ∈ attribute_vals offer "extmap",
      ∃ uri, strv_index (g_strsplit attr ' ') 1 = some (some uri) := by
  unfold kms_sdp_rtp_avp_media_handler_create_answer at h
  have hnew : gst_sdp_media_new = (GST_SDP_OK, gst_sdp_media_new.2) := rfl
  rw [hnew] at h
  dsimp only at h
  split at h
  · simp only [Option.some.injEq] at h
    subst h
    exact absurd hm (by simp)
  · split at h
    · exact absurd h (by simp)
    · rename_i r2 h2
      by_cases hok2 : r2.ok = true
      · exact (add_answer_attributes_impl_eq cat ext handler offer _ _ r2 h2 hok2).2.2
      · simp only [hok2, Bool.not_false, if_true, Option.some.injEq] at h
        subst h
        exact absurd hm (by simp)

theorem answer_extmap_vals_of_eq_replicate (self : KmsSdpRtpAvpMediaHandler) (v : String) :
    answer_extmap_vals_of self v = List.replicate (matching_mappings self v) v := by
  unfold answer_extmap_vals_of matching_mappings
  split
  · rename_i offer_uri hu
    rw [List.countP_eq_length_filter]
    exact List.map_const' _ _
  · rfl

theorem create_answer_offer2 :
    kms_sdp_rtp_avp_media_handler_create_answer builtin base handler2 offer2 =
      some { media := some answer2, error := none } := by
  decide

theorem offer_rtpmaps_of_keys (maps : List KmsSdpRtpMap) (l : List String) :
    ∀ a ∈ (l.map (offer_rtpmaps_of maps)).flatten, a.key = "rtpmap" := by
  intro a ha
  obtain ⟨as, has, haas⟩ := List.mem_flatten.mp ha
  obtain ⟨payload, -, rfl⟩ := List.mem_map.mp has
  unfold offer_rtpmaps_of at haas
  split at haas
  · exact absurd haas (by simp)
  · split at haas
    · exact absurd haas (by simp)
    · obtain ⟨mp, -, rfl⟩ := List.mem_map.mp haas
      rfl

/-- When `add_offer_attributes` returns `TRUE`, its result is the result of the
parent step on the media with the formats, then the `extmap` attributes of the
table, then `rtpmap` attributes appended. -/
theorem add_offer_attributes_ok (cat : Catalog) (ext : External)
    (handler : KmsSdpRtpAvpMediaHandler) (m0 : GstSDPMedia) (e : Option SdpAgentError) (r : Ret)
    (h : kms_sdp_rtp_avp_media_handler_add_offer_attributes cat ext handler m0 e = some r)
    (hok : r.ok = true) :
    ∃ F R e3, (∀ a ∈ R, a.key = "rtpmap") ∧
      r = ext.parent_add_offer_attributes handler
        (with_attributes (with_attributes (with_fmts m0 F) (handler.extmaps.map offer_extmap_of)) R)
        e3 := by
  unfold kms_sdp_rtp_avp_media_handler_add_offer_attributes at h
  split at h
  · exact absurd h (by simp)
  · rename_i r1 h1
    obtain ⟨F, hF⟩ := add_supported_fmts_frame cat m0 e r1 h1
    split at h
    · simp only [Option.some.injEq] at h
      subst h
      rename_i hr1
      simp [hok] at hr1
    · simp only [kms_sdp_rtp_avp_media_handler_add_extmaps, add_extmaps_loop_eq] at h
      split at h
      · rename_i hfalse
        simp at hfalse
      · split at h
        · exact absurd h (by simp)
        · rename_i r3 h3
          split at h
          · simp only [Option.some.injEq] at h
            subst h
            rename_i hr3
            simp [hok] at hr3
          · simp only [Option.some.injEq] at h
            unfold kms_sdp_rtp_avp_media_handler_add_rtpmap_attrs at h3
            split at h3
            · simp only [Option.some.injEq] at h3
              subst h3
              rename_i hr3
              simp at hr3
            · rename_i maps b hs
              have h3' := add_rtpmap_attrs_loop_eq _ _ _ _ _ h3
              refine ⟨F, _, r3.error, offer_rtpmaps_of_keys maps
                (with_attributes r1.media (handler.extmaps.map offer_extmap_of)).fmts, ?_⟩
              rw [← h]
              congr 1
              rw [h3', hF]

theorem vals_nil_filter_nil (l : List GstSDPAttribute) (k : String)
    (h : (l.filter (fun a => decide (a.key = k))).map (fun a => a.value) = []) :
    ∀ a ∈ l, a.key ≠ k := by
  intro a ha hk
  have hnil : l.filter (fun a => decide (a.key = k)) = [] := List.map_eq_nil_iff.mp h
  have hmem : a ∈ l.filter (fun a => decide (a.key = k)) :=
    List.mem_filter.mpr ⟨ha, by simpa using hk⟩
  rw [hnil] at hmem
  exact absurd hmem (by simp)

theorem create_offer_audio_handler2 :
    kms_sdp_rtp_avp_media_handler_create_offer builtin base handler2 (some "audio") =
      some { media := some audio_offer2, error := none } := by
  decide

theorem add_extmap_ids (self : KmsSdpRtpAvpMediaHandler) (id : Nat) (uri : String)
    (e : Option SdpAgentError) (h : ∀ p ∈ self.extmaps, p.1 < 256) :
    ∀ p ∈ (kms_sdp_rtp_avp_media_handler_add_extmap self id uri e).2.1.extmaps, p.1 < 256 := by
  unfold kms_sdp_rtp_avp_media_handler_add_extmap
  dsimp only
  split
  · exact h
  · rename_i hc
    have hins : g_hash_table_insert self.extmaps (id % 256) uri =
        self.extmaps ++ [(id % 256, uri)] := by
      unfold g_hash_table_insert
      rw [if_neg hc]
    intro p hp
    simp only [hins, List.mem_append, List.mem_singleton] at hp
    rcases hp with hp | hp
    · exact h p hp
    · subst hp
      exact Nat.mod_lt _ (by decide)

theorem add_extmap_calls_ids (calls : List (Nat × String)) :
    ∀ self : KmsSdpRtpAvpMediaHandler, (∀ p ∈ self.extmaps, p.1 < 256) →
      ∀ p ∈ (add_extmap_calls calls self).extmaps, p.1 < 256 := by
  induction calls with
  | nil => intro self h; exact h
  | cons c cs ih =>
    intro self h
    exact ih _ (add_extmap_ids self c.1 c.2 none h)

theorem add_supported_rtpmap_attrs_loop_ok (cat : Catalog) (offer : GstSDPMedia)
    (l : List String) (hl : ∀ fmt ∈ l, format_supported cat offer fmt = some true) :
    ∀ (a : GstSDPMedia) (e : Option SdpAgentError),
      ∃ r, add_supported_rtpmap_attrs_loop cat offer l a e = some r ∧ r.ok = true := by
  induction l with
  | nil => intro a e; exact ⟨_, rfl, rfl⟩
  | cons f fs ih =>
    intro a e
    have ihf := ih (fun fmt hfmt => hl fmt (List.mem_cons_of_mem _ hfmt))
    have hf := hl f (List.mem_cons_self _ _)
    unfold format_supported at hf
    unfold add_supported_rtpmap_attrs_loop
    cases hv : sdp_utils_get_attr_map_value offer "rtpmap" f with
    | some val =>
      simp only [gst_sdp_media_add_attribute]
      exact ihf _ _
    | none =>
      rw [hv] at hf
      simp only at hf ⊢
      cases hpt : atoi f with
      | none => rw [hpt] at hf; exact absurd hf (by simp)
      | some pt =>
        rw [hpt] at hf
        simp only at hf ⊢
        by_cases hb : in_default_pt_bound pt = true
        · rw [if_pos hb] at hf ⊢
          cases ht : rtpmaps_at pt.toNat with
          | none => rw [ht] at hf; exact absurd hf (by simp)
          | some slot =>
            cases slot with
            | none => rw [ht] at hf; exact absurd hf (by simp)
            | some name =>
              rw [ht] at hf
              simp only [Option.some.injEq] at hf
              simp only [hf, if_true]
              exact ihf _ _
        · rw [if_neg hb] at hf
          exact absurd hf (by simp)

theorem add_supported_extmaps_loop_fails (self : KmsSdpRtpAvpMediaHandler) (l : List String) :
    ∀ (a : GstSDPMedia) (e : Option SdpAgentError) (r : Ret),
      add_supported_extmaps_loop self l a e = some r → r.ok = false →
      ∃ v ∈ l, strv_index (g_strsplit v ' ') 1 = some none := by
  induction l with
  | nil =>
    intro a e r h hok
    simp only [add_supported_extmaps_loop, Option.some.injEq] at h
    subst h
    exact absurd hok (by simp)
  | cons x xs ih =>
    intro a e r h hok
    unfold add_supported_extmaps_loop at h
    dsimp only at h
    cases hx : strv_index (g_strsplit x ' ') 1 with
    | none => rw [hx] at h; exact absurd h (by simp)
    | some u =>
      cases u with
      | none => exact ⟨x, List.mem_cons_self _ _, hx⟩
      | some uri =>
        rw [hx] at h
        simp only [add_supported_extmaps_inner_eq, if_true] at h
        obtain ⟨v, hv, hvn⟩ := ih _ _ _ h hok
        exact ⟨v, List.mem_cons_of_mem _ hv, hvn⟩

theorem digitChar_facts :
    ∀ k, k < 10 → (Nat.digitChar k).isDigit = true ∧ (Nat.digitChar k).toNat - 48 = k ∧
      isspace (Nat.digitChar k) = false ∧ Nat.digitChar k ≠ '-' ∧ Nat.digitChar k ≠ '+' := by
  decide

theorem atoi_digits_append (D rest : List Char)
    (hD : ∀ c ∈ D, ∃ k, k < 10 ∧ c = Nat.digitChar k) :
    ∀ acc, atoi_digits acc (D ++ rest) =
      atoi_digits (D.foldl (fun a c => a * 10 + (c.toNat - 48)) acc) rest := by
  induction D with
  | nil => intro acc; rfl
  | cons c cs ih =>
    intro acc
    obtain ⟨k, hk, rfl⟩ := hD c (List.mem_cons_self _ _)
    have hc := (digitChar_facts k hk).1
    simp only [List.cons_append, atoi_digits, hc, if_true, List.foldl_cons]
    exact ih (fun c hc => hD c (List.mem_cons_of_mem _ hc)) _

theorem toDigitsCore_digits (fuel : Nat) :
    ∀ (n : Nat) (ds : List Char), n < fuel →
      ∃ c0 D, Nat.toDigitsCore 10 fuel n ds = (c0 :: D) ++ ds ∧
        (∀ c ∈ c0 :: D, ∃ k, k < 10 ∧ c = Nat.digitChar k) ∧
        (c0 :: D).foldl (fun a c => a * 10 + (c.toNat - 48)) 0 = n := by
  induction fuel with
  | zero => intro n ds h; exact absurd h (Nat.not_lt_zero n)
  | succ fuel ih =>
    intro n ds hn
    have hmod : n % 10 < 10 := Nat.mod_lt _ (by decide)
    unfold Nat.toDigitsCore
    simp only
    by_cases h0 : n / 10 = 0
    · rw [if_pos h0]
      refine ⟨Nat.digitChar (n % 10), [], rfl, ?_, ?_⟩
      · intro c hc
        simp only [List.mem_singleton] at hc
        exact ⟨n % 10, hmod, hc⟩
      · simp only [List.foldl_cons, List.foldl_nil, (digitChar_facts _ hmod).2.1]
        omega
    · rw [if_neg h0]
      have hlt : n / 10 < fuel := by omega
      obtain ⟨c0, D, hD, hall, hval⟩ := ih (n / 10) (Nat.digitChar (n % 10) :: ds) hlt
      refine ⟨c0, D ++ [Nat.digitChar (n % 10)], ?_, ?_, ?_⟩
      · rw [hD]; simp
      · intro c hc
        rw [← List.cons_append, List.mem_append] at hc
        rcases hc with hc | hc
        · exact hall c hc
        · simp only [List.mem_singleton] at hc
          exact ⟨n % 10, hmod, hc⟩
      · rw [← List.cons_append, List.foldl_append, hval]
        simp only [List.foldl_cons, List.foldl_nil, (digitChar_facts _ hmod).2.1]
        omega

theorem atoi_value_print_u (n : Nat) : atoi_value (print_u n) = (n : Int) := by
  obtain ⟨c0, D, hD, hall, hval⟩ := toDigitsCore_digits (n + 1) n [] (Nat.lt_succ_self n)
  have hdata : (print_u n).data = c0 :: D := by
    simp only [print_u, Nat.repr, Nat.toDigits, hD, List.append_nil, List.asString]
  obtain ⟨k, hk, hc0⟩ := hall c0 (List.mem_cons_self _ _)
  obtain ⟨-, -, hsp, hminus, hplus⟩ := digitChar_facts k hk
  rw [← hc0] at hsp hminus hplus
  have hdigits : atoi_digits 0 (c0 :: D) = n := by
    have := atoi_digits_append (c0 :: D) [] hall 0
    rw [List.append_nil] at this
    rw [this, hval]
    rfl
  unfold atoi_value
  rw [hdata]
  simp only [List.dropWhile, hsp, if_neg hminus, if_neg hplus, hdigits]

theorem atoi_print_u (n : Nat) (hn : n ≤ 2147483647) : atoi (print_u n) = some (n : Int) := by
  unfold atoi
  rw [atoi_value_print_u]
  rw [if_pos]
  constructor <;> omega

theorem format_supported_no_rtpmap (cat : Catalog) (offer : GstSDPMedia) (fmt : String)
    (hno : sdp_utils_get_attr_map_value offer "rtpmap" fmt = none) :
    format_supported cat offer fmt =
      match atoi fmt with
      | none => none
      | some pt =>
        if in_default_pt_bound pt then static_accept cat offer.media pt.toNat else some false := by
  unfold format_supported
  rw [hno]
  simp only
  cases atoi fmt with
  | none => rfl
  | some pt =>
    simp only
    by_cases hb : in_default_pt_bound pt = true
    · rw [if_pos hb, if_pos hb]
      unfold static_accept encoding_supported
      cases rtpmaps_at pt.toNat with
      | none => rfl
      | some slot =>
        cases slot with
        | none => rfl
        | some name => rfl
    · rw [if_neg hb, if_neg hb]

theorem static_accept_builtin_audio :
    ∀ i, i < 35 → static_accept builtin (some "audio") i = some (decide (i = 0)) := by
  decide

theorem static_accept_builtin_video :
    ∀ i, i < 35 → static_accept builtin (some "video") i = some false := by
  decide

theorem rtpmaps_at_defined : ∀ i, i < 35 → (rtpmaps_at i).isSome = true := by
  decide

theorem static_accept_35 (cat : Catalog) (media : Option String) :
    static_accept cat media 35 = none := by
  have h : rtpmaps_at 35 = none := by decide
  simp [static_accept, h]

theorem static_accept_builtin_other (media : Option String)
    (ha : media ≠ some "audio") (hv : media ≠ some "video") :
    ∀ i, i < 35 → static_accept builtin media i = some false := by
  intro i hi
  have hs : select_maps builtin media = none := by
    simp [select_maps, SDP_AUDIO_MEDIA, SDP_VIDEO_MEDIA, ha, hv]
  have hd := rtpmaps_at_defined i hi
  unfold static_accept
  cases hr : rtpmaps_at i with
  | none => rw [hr] at hd; exact absurd hd (by simp)
  | some slot =>
    cases slot with
    | none => rfl
    | some name => simp [hs]

/-- With the built-in catalogs, the acceptance of slot `i` of the table, for
`i` inside the bound of the check: `TRUE` for audio and slot 0 only, undefined
at 35. -/
theorem static_accept_builtin (media : Option String) (i : Nat) (hi : i ≤ 35) :
    (static_accept builtin media i = some true ↔ media = some "audio" ∧ i = 0) ∧
      (i ≤ 34 → static_accept builtin media i = some (decide (media = some "audio" ∧ i = 0))) := by
  by_cases h35 : i = 35
  · subst h35
    rw [static_accept_35]
    simp
  · have hi' : i < 35 := by omega
    by_cases ha : media = some "audio"
    · subst ha
      rw [static_accept_builtin_audio i hi']
      simp
    · by_cases hv : media = some "video"
      · subst hv
        rw [static_accept_builtin_video i hi']
        simp
      · rw [static_accept_builtin_other media ha hv i hi']
        simp [ha]

/-! ## Claims -/

/-- C1: when `add_answer_attributes_impl` returns `TRUE` for an answer that had
no formats, the format list of the answer is the format list of the offer
filtered by `format_supported`, in offer order with duplicates kept: a format of
the offer is in the answer exactly when `format_supported` holds for it (and
`format_supported` was defined for every format of the offer). -/
theorem add_answer_attributes_formats (cat : Catalog) (ext : External) (hg : ext.Generic)
    (handler : KmsSdpRtpAvpMediaHandler) (offer answer : GstSDPMedia)
    (e : Option SdpAgentError) (r : Ret) (ha : answer.fmts = [])
    (h : kms_sdp_rtp_avp_media_handler_add_answer_attributes_impl cat ext handler offer answer e =
      some r)
    (hok : r.ok = true) :
    r.media.fmts =
        offer.fmts.filter (fun fmt => decide (format_supported cat offer fmt = some true)) ∧
      (∀ fmt, fmt ∈ r.media.fmts ↔ (fmt ∈ offer.fmts ∧ format_supported cat offer fmt = some true)) ∧
      (∀ fmt ∈ offer.fmts, format_supported cat offer fmt ≠ none) := by
  obtain ⟨hr, -, -⟩ := add_answer_attributes_impl_eq cat ext handler offer answer e r h hok
  have hf : r.media.fmts =
      offer.fmts.filter (fun fmt => decide (format_supported cat offer fmt = some true)) := by
    rw [hr]
    simp [answer_after_steps, answer_fmts, (hg.answer_step handler offer answer e).2.2.1, ha]
  refine ⟨hf, ?_, add_answer_attributes_impl_defined cat ext handler offer answer e r h hok⟩
  intro fmt
  rw [hf, List.mem_filter]
  simp

theorem add_answer_attributes_formats_witness :
    base.Generic ∧ (answer_after_init offer1).fmts = [] ∧
    kms_sdp_rtp_avp_media_handler_add_answer_attributes_impl builtin base handler1 offer1
      (answer_after_init offer1) none =
      some { ok := true, media := answer1_steps, error := none } ∧
    answer1_steps.fmts = ["98", "0"] ∧
    answer1_steps.fmts =
        offer1.fmts.filter (fun fmt => decide (format_supported builtin offer1 fmt = some true)) ∧
      (∀ fmt, fmt ∈ answer1_steps.fmts ↔
        (fmt ∈ offer1.fmts ∧ format_supported builtin offer1 fmt = some true)) ∧
      (∀ fmt ∈ offer1.fmts, format_supported builtin offer1 fmt ≠ none) :=
  ⟨base_generic, rfl, by decide, rfl,
    add_answer_attributes_formats builtin base base_generic handler1 offer1
      (answer_after_init offer1) none { ok := true, media := answer1_steps, error := none } rfl
      (by decide) rfl⟩

/-- C2: an answer returned by `create_answer` has the media name and the
protocol of the offer, and its port is 0 exactly when its format list is empty,
and 1 otherwise. -/
theorem create_answer_m_line (cat : Catalog) (ext : External) (hg : ext.Generic)
    (handler : KmsSdpRtpAvpMediaHandler) (offer : GstSDPMedia) (c : Created) (m : GstSDPMedia)
    (h : kms_sdp_rtp_avp_media_handler_create_answer cat ext handler offer = some c)
    (hm : c.media = some m) :
    m.media = offer.media ∧ m.proto = offer.proto ∧ (m.port = 0 ↔ m.fmts = []) ∧
      (m.fmts ≠ [] → m.port = 1) := by
  obtain ⟨-, -, h1, h2, h3, -⟩ := create_answer_some cat ext hg handler offer c m h hm
  refine ⟨h1, h2, ?_, ?_⟩
  · rw [h3]
    cases hf : m.fmts with
    | nil => simp
    | cons x xs => simp
  · intro hne
    rw [h3]
    cases hf : m.fmts with
    | nil => exact absurd hf hne
    | cons x xs => simp

theorem create_answer_m_line_witness :
    base.Generic ∧
    kms_sdp_rtp_avp_media_handler_create_answer builtin base handler1 offer1 =
      some { media := some answer1, error := none } ∧
    answer1.media = offer1.media ∧ answer1.proto = offer1.proto ∧
      (answer1.port = 0 ↔ answer1.fmts = []) ∧ (answer1.fmts ≠ [] → answer1.port = 1) :=
  ⟨base_generic, create_answer_offer1,
    create_answer_m_line builtin base base_generic handler1 offer1
      { media := some answer1, error := none } answer1 create_answer_offer1 rfl⟩

/-- C3: in an answer returned by `create_answer`, for every format of the answer
either the `rtpmap` attribute looked up for the format in the answer is the one
looked up for it in the offer, or the answer has no `rtpmap` attribute for the
format and the number of the format is a static payload type. -/
theorem create_answer_rtpmap_round_trip (cat : Catalog) (ext : External) (hg : ext.Generic)
    (handler : KmsSdpRtpAvpMediaHandler) (offer : GstSDPMedia) (c : Created) (m : GstSDPMedia)
    (h : kms_sdp_rtp_avp_media_handler_create_answer cat ext handler offer = some c)
    (hm : c.media = some m) :
    ∀ fmt ∈ m.fmts,
      (∃ val, sdp_utils_get_attr_map_value m "rtpmap" fmt = some val ∧
        sdp_utils_get_attr_map_value offer "rtpmap" fmt = some val) ∨
      (sdp_utils_get_attr_map_value m "rtpmap" fmt = none ∧
        sdp_utils_get_attr_map_value offer "rtpmap" fmt = none ∧
        fmt_static_payload_type fmt = true) := by
  obtain ⟨-, -, -, -, -, -, -, hv, -, hstat, -⟩ :=
    create_answer_some cat ext hg handler offer c m h hm
  intro fmt hfmt
  have hfind : sdp_utils_get_attr_map_value m "rtpmap" fmt =
      sdp_utils_get_attr_map_value offer "rtpmap" fmt := by
    unfold sdp_utils_get_attr_map_value
    rw [hv]
    exact find_among_found (attribute_vals offer "rtpmap") m.fmts fmt hfmt
  cases ho : sdp_utils_get_attr_map_value offer "rtpmap" fmt with
  | none =>
    right
    exact ⟨by rw [hfind, ho], rfl, hstat fmt hfmt ho⟩
  | some val =>
    left
    exact ⟨val, by rw [hfind, ho], rfl⟩

theorem create_answer_rtpmap_round_trip_witness :
    base.Generic ∧
    kms_sdp_rtp_avp_media_handler_create_answer builtin base handler1 offer1 =
      some { media := some answer1, error := none } ∧
    "98" ∈ answer1.fmts ∧
    ((∃ val, sdp_utils_get_attr_map_value answer1 "rtpmap" "98" = some val ∧
        sdp_utils_get_attr_map_value offer1 "rtpmap" "98" = some val) ∨
      (sdp_utils_get_attr_map_value answer1 "rtpmap" "98" = none ∧
        sdp_utils_get_attr_map_value offer1 "rtpmap" "98" = none ∧
        fmt_static_payload_type "98" = true)) ∧
    sdp_utils_get_attr_map_value answer1 "rtpmap" "98" = some "98 OPUS/48000/2" ∧
    "0" ∈ answer1.fmts ∧
    ((∃ val, sdp_utils_get_attr_map_value answer1 "rtpmap" "0" = some val ∧
        sdp_utils_get_attr_map_value offer1 "rtpmap" "0" = some val) ∨
      (sdp_utils_get_attr_map_value answer1 "rtpmap" "0" = none ∧
        sdp_utils_get_attr_map_value offer1 "rtpmap" "0" = none ∧
        fmt_static_payload_type "0" = true)) ∧
    sdp_utils_get_attr_map_value answer1 "rtpmap" "0" = none :=
  ⟨base_generic, create_answer_offer1, by decide,
    create_answer_rtpmap_round_trip builtin base base_generic handler1 offer1
      { media := some answer1, error := none } answer1 create_answer_offer1 rfl "98" (by decide),
    by decide, by decide,
    create_answer_rtpmap_round_trip builtin base base_generic handler1 offer1
      { media := some answer1, error := none } answer1 create_answer_offer1 rfl "0" (by decide),
    by decide⟩

/-- C4: with the built-in catalog and a parent step that returns `TRUE`,
`create_offer` for audio and for video returns an offer, and its format list is
the payload numbers of the catalog printed in decimal, in catalog order:
98, 99, 0 for audio and 96, 97, 100, 101 for video. -/
theorem create_offer_format_list (ext : External) (hg : ext.Generic)
    (hok : ∀ h m e, (ext.parent_add_offer_attributes h m e).ok = true)
    (handler : KmsSdpRtpAvpMediaHandler) :
    (∃ c m, kms_sdp_rtp_avp_media_handler_create_offer builtin ext handler (some "audio") = some c ∧
      c.media = some m ∧ m.fmts = builtin.audio_fmts.map (fun mp => print_u mp.payload) ∧
      m.fmts = ["98", "99", "0"]) ∧
    (∃ c m, kms_sdp_rtp_avp_media_handler_create_offer builtin ext handler (some "video") = some c ∧
      c.media = some m ∧ m.fmts = builtin.video_fmts.map (fun mp => print_u mp.payload) ∧
      m.fmts = ["96", "97", "100", "101"]) := by
  have ha : builtin.audio_fmts.map (fun mp => print_u mp.payload) = ["98", "99", "0"] := by decide
  have hv : builtin.video_fmts.map (fun mp => print_u mp.payload) = ["96", "97", "100", "101"] := by
    decide
  constructor
  · have hc := create_offer_audio ext handler
    have hf := (hg.offer_step handler (offer_before_chain_up handler "audio" ["98", "99", "0"]
      ["98 OPUS/48000/2", "99 AMR/8000/1"]) none).2.2.2.2.1
    have hk := hok handler (offer_before_chain_up handler "audio" ["98", "99", "0"]
      ["98 OPUS/48000/2", "99 AMR/8000/1"]) none
    exact ⟨_, (ext.parent_add_offer_attributes handler (offer_before_chain_up handler "audio"
      ["98", "99", "0"] ["98 OPUS/48000/2", "99 AMR/8000/1"]) none).media, hc,
      by simp [created_of, hk], by rw [ha, hf]; rfl, by rw [hf]; rfl⟩
  · have hc := create_offer_video ext handler
    have hf := (hg.offer_step handler (offer_before_chain_up handler "video"
      ["96", "97", "100", "101"]
      ["96 H263-1998/90000", "97 VP8/90000", "100 MP4V-ES/90000", "101 H264/90000"]) none).2.2.2.2.1
    have hk := hok handler (offer_before_chain_up handler "video" ["96", "97", "100", "101"]
      ["96 H263-1998/90000", "97 VP8/90000", "100 MP4V-ES/90000", "101 H264/90000"]) none
    exact ⟨_, (ext.parent_add_offer_attributes handler (offer_before_chain_up handler "video"
      ["96", "97", "100", "101"]
      ["96 H263-1998/90000", "97 VP8/90000", "100 MP4V-ES/90000", "101 H264/90000"]) none).media,
      hc, by simp [created_of, hk], by rw [hv, hf]; rfl, by rw [hf]; rfl⟩

theorem create_offer_format_list_witness :
    base.Generic ∧
    (∀ h m e, (base.parent_add_offer_attributes h m e).ok = true) ∧
    (∃ c m, kms_sdp_rtp_avp_media_handler_create_offer builtin base
        kms_sdp_rtp_avp_media_handler_new (some "audio") = some c ∧
      c.media = some m ∧ m.fmts = builtin.audio_fmts.map (fun mp => print_u mp.payload) ∧
      m.fmts = ["98", "99", "0"]) ∧
    (∃ c m, kms_sdp_rtp_avp_media_handler_create_offer builtin base
        kms_sdp_rtp_avp_media_handler_new (some "video") = some c ∧
      c.media = some m ∧ m.fmts = builtin.video_fmts.map (fun mp => print_u mp.payload) ∧
      m.fmts = ["96", "97", "100", "101"]) :=
  ⟨base_generic, fun _ _ _ => rfl,
    create_offer_format_list base base_generic (fun _ _ _ => rfl)
      kms_sdp_rtp_avp_media_handler_new⟩

/-- C5: in an offer returned by `create_offer` (built-in catalogs), every format
whose number is not a static payload type has the `rtpmap` attribute
`<number> <encoding>` of its catalog entry, and no `rtpmap` attribute names a
format whose number is in the static range; for audio the `rtpmap` values are
exactly `98 OPUS/48000/2` and `99 AMR/8000/1`, with none for format `0`. -/
theorem create_offer_rtpmaps (ext : External) (hg : ext.Generic)
    (handler : KmsSdpRtpAvpMediaHandler) (media : Option String) (c : Created) (m : GstSDPMedia)
    (h : kms_sdp_rtp_avp_media_handler_create_offer builtin ext handler media = some c)
    (hm : c.media = some m) :
    (∃ maps is_audio, select_maps builtin media = some (maps, is_audio) ∧
      ∀ fmt ∈ m.fmts,
        (fmt_static_payload_type fmt = false →
          ∃ mp ∈ maps, fmt = print_u mp.payload ∧
            sdp_utils_get_attr_map_value m "rtpmap" fmt =
              some (print_u mp.payload ++ " " ++ mp.name)) ∧
        (fmt_in_static_range fmt = true →
          ∀ val ∈ attribute_vals m "rtpmap", (g_strsplit val ' ').head? ≠ some fmt)) ∧
    (media = some "audio" →
      attribute_vals m "rtpmap" = ["98 OPUS/48000/2", "99 AMR/8000/1"] ∧
      sdp_utils_get_attr_map_value m "rtpmap" "0" = none) := by
  obtain ⟨kind, hkm, hkind, -⟩ := create_offer_some builtin ext hg handler media c m h hm
  subst hkm
  rcases hkind with hk | hk
  · subst hk
    rw [create_offer_audio] at h
    simp only [Option.some.injEq] at h
    subst h
    unfold created_of at hm
    split at hm
    · simp only [Option.some.injEq] at hm
      subst hm
      obtain ⟨-, -, -, -, hf, hv, -⟩ := hg.offer_step handler
        (offer_before_chain_up handler "audio" ["98", "99", "0"]
          ["98 OPUS/48000/2", "99 AMR/8000/1"]) none
      rw [attribute_vals_offer_before_chain_up] at hv
      have hf2 : (ext.parent_add_offer_attributes handler
          (offer_before_chain_up handler "audio" ["98", "99", "0"]
            ["98 OPUS/48000/2", "99 AMR/8000/1"]) none).media.fmts = ["98", "99", "0"] := hf
      refine ⟨⟨audio_fmts, true, by decide, ?_⟩, ?_⟩
      · simp only [sdp_utils_get_attr_map_value, hv, hf2]
        decide
      · intro _
        simp only [sdp_utils_get_attr_map_value, hv]
        decide
    · exact absurd hm (by simp)
  · subst hk
    rw [create_offer_video] at h
    simp only [Option.some.injEq] at h
    subst h
    unfold created_of at hm
    split at hm
    · simp only [Option.some.injEq] at hm
      subst hm
      obtain ⟨-, -, -, -, hf, hv, -⟩ := hg.offer_step handler
        (offer_before_chain_up handler "video" ["96", "97", "100", "101"]
          ["96 H263-1998/90000", "97 VP8/90000", "100 MP4V-ES/90000", "101 H264/90000"]) none
      rw [attribute_vals_offer_before_chain_up] at hv
      have hf2 : (ext.parent_add_offer_attributes handler
          (offer_before_chain_up handler "video" ["96", "97", "100", "101"]
            ["96 H263-1998/90000", "97 VP8/90000", "100 MP4V-ES/90000", "101 H264/90000"])
          none).media.fmts = ["96", "97", "100", "101"] := hf
      refine ⟨⟨video_fmts, false, by decide, ?_⟩, ?_⟩
      · simp only [sdp_utils_get_attr_map_value, hv, hf2]
        decide
      · intro hh
        exact absurd hh (by decide)
    · exact absurd hm (by simp)

theorem create_offer_rtpmaps_witness :
    base.Generic ∧
    kms_sdp_rtp_avp_media_handler_create_offer builtin base kms_sdp_rtp_avp_media_handler_new
      (some "audio") = some { media := some audio_offer, error := none } ∧
    (∃ maps is_audio, select_maps builtin (some "audio") = some (maps, is_audio) ∧
      ∀ fmt ∈ audio_offer.fmts,
        (fmt_static_payload_type fmt = false →
          ∃ mp ∈ maps, fmt = print_u mp.payload ∧
            sdp_utils_get_attr_map_value audio_offer "rtpmap" fmt =
              some (print_u mp.payload ++ " " ++ mp.name)) ∧
        (fmt_in_static_range fmt = true →
          ∀ val ∈ attribute_vals audio_offer "rtpmap", (g_strsplit val ' ').head? ≠ some fmt)) ∧
    ((some "audio" : Option String) = some "audio" →
      attribute_vals audio_offer "rtpmap" = ["98 OPUS/48000/2", "99 AMR/8000/1"] ∧
      sdp_utils_get_attr_map_value audio_offer "rtpmap" "0" = none) :=
  ⟨base_generic, create_offer_audio_new,
    create_offer_rtpmaps base base_generic kms_sdp_rtp_avp_media_handler_new (some "audio")
      { media := some audio_offer, error := none } audio_offer create_offer_audio_new rfl⟩

/-- C6: a media description returned by `create_offer` of a handler built with
the default protocol has protocol `RTP/AVP`, the requested media name, which is
audio or video, port 1 and port count 1. -/
theorem create_offer_m_line (cat : Catalog) (ext : External) (hg : ext.Generic)
    (handler : KmsSdpRtpAvpMediaHandler)
    (hp : handler.proto = kms_sdp_rtp_avp_media_handler_new.proto)
    (media : Option String) (c : Created) (m : GstSDPMedia)
    (h : kms_sdp_rtp_avp_media_handler_create_offer cat ext handler media = some c)
    (hm : c.media = some m) :
    m.proto = some "RTP/AVP" ∧ m.media = media ∧ (media = some "audio" ∨ media = some "video") ∧
      m.port = 1 ∧ m.num_ports = 1 := by
  obtain ⟨kind, hkm, hkind, h1, h2, h3, h4⟩ := create_offer_some cat ext hg handler media c m h hm
  subst hkm
  refine ⟨?_, h1, ?_, h3, h4⟩
  · rw [h2]
    simp only [offer_after_init, hp]
    rfl
  · rcases hkind with hk | hk <;> simp [hk]

theorem create_offer_m_line_witness :
    base.Generic ∧
    kms_sdp_rtp_avp_media_handler_create_offer builtin base kms_sdp_rtp_avp_media_handler_new
      (some "audio") = some { media := some audio_offer, error := none } ∧
    audio_offer.proto = some "RTP/AVP" ∧ audio_offer.media = some "audio" ∧
      ((some "audio" : Option String) = some "audio" ∨ (some "audio" : Option String) = some "video") ∧
      audio_offer.port = 1 ∧ audio_offer.num_ports = 1 :=
  ⟨base_generic, create_offer_audio_new,
    create_offer_m_line builtin base base_generic kms_sdp_rtp_avp_media_handler_new rfl
      (some "audio") { media := some audio_offer, error := none } audio_offer
      create_offer_audio_new rfl⟩

/-- C7 as stated fails: for the media name `data`, `create_offer` returns no
media with the error code `SDP_AGENT_INVALID_MEDIA`, whose kind is `InvalidMedia`,
not `UnsupportedMedia`. -/
theorem create_offer_not_unsupported_media :
    kms_sdp_rtp_avp_media_handler_create_offer builtin base kms_sdp_rtp_avp_media_handler_new
        (some "data") = some { media := none, error := some SDP_AGENT_INVALID_MEDIA } ∧
      SdpAgentError.kind SDP_AGENT_INVALID_MEDIA ≠ NegotiationErrorKind.UnsupportedMedia := by
  decide

/-- C7, amended: for every media name other than `audio` and `video` (and for
`NULL`), `create_offer` returns no media description and sets the error code
`SDP_AGENT_INVALID_MEDIA`, whose kind is `InvalidMedia`. -/
theorem create_offer_invalid_media (cat : Catalog) (ext : External)
    (handler : KmsSdpRtpAvpMediaHandler) (media : Option String)
    (ha : media ≠ some "audio") (hv : media ≠ some "video") :
    ∃ c, kms_sdp_rtp_avp_media_handler_create_offer cat ext handler media = some c ∧
      c.media = none ∧ c.error = some SDP_AGENT_INVALID_MEDIA ∧
      c.error.map SdpAgentError.kind = some NegotiationErrorKind.InvalidMedia :=
  ⟨_, create_offer_other cat ext handler media ha hv, rfl, rfl, rfl⟩

theorem create_offer_invalid_media_witness :
    (some "data" : Option String) ≠ some "audio" ∧ (some "data" : Option String) ≠ some "video" ∧
    ∃ c, kms_sdp_rtp_avp_media_handler_create_offer builtin base
        kms_sdp_rtp_avp_media_handler_new (some "data") = some c ∧
      c.media = none ∧ c.error = some SDP_AGENT_INVALID_MEDIA ∧
      c.error.map SdpAgentError.kind = some NegotiationErrorKind.InvalidMedia :=
  ⟨by decide, by decide,
    create_offer_invalid_media builtin base kms_sdp_rtp_avp_media_handler_new (some "data")
      (by decide) (by decide)⟩

/-- C8: `init_answer` returns `TRUE` exactly when the media of the offer is
audio or video and the protocol of the offer equals the protocol of the handler;
for another media it fails with `SDP_AGENT_INVALID_MEDIA` (kind `InvalidMedia`)
whatever the protocol, and for audio or video with another protocol it fails
with `SDP_AGENT_INVALID_PROTOCOL` (kind `InvalidProtocol`). -/
theorem init_answer_result (handler : KmsSdpRtpAvpMediaHandler) (offer answer : GstSDPMedia) :
    ((kms_sdp_rtp_avp_media_handler_init_answer handler offer answer none).ok = true ↔
      ((offer.media = some "audio" ∨ offer.media = some "video") ∧ offer.proto = handler.proto)) ∧
    ((offer.media ≠ some "audio" ∧ offer.media ≠ some "video") →
      (kms_sdp_rtp_avp_media_handler_init_answer handler offer answer none).ok = false ∧
      (kms_sdp_rtp_avp_media_handler_init_answer handler offer answer none).error =
        some SDP_AGENT_INVALID_MEDIA ∧
      (kms_sdp_rtp_avp_media_handler_init_answer handler offer answer none).error.map
        SdpAgentError.kind = some NegotiationErrorKind.InvalidMedia) ∧
    ((offer.media = some "audio" ∨ offer.media = some "video") → offer.proto ≠ handler.proto →
      (kms_sdp_rtp_avp_media_handler_init_answer handler offer answer none).ok = false ∧
      (kms_sdp_rtp_avp_media_handler_init_answer handler offer answer none).error =
        some SDP_AGENT_INVALID_PROTOCOL ∧
      (kms_sdp_rtp_avp_media_handler_init_answer handler offer answer none).error.map
        SdpAgentError.kind = some NegotiationErrorKind.InvalidProtocol) := by
  by_cases hk : offer.media = some "audio" ∨ offer.media = some "video"
  · have hk2 : ¬ (offer.media ≠ some "audio" ∧ offer.media ≠ some "video") := by
      rintro ⟨h1, h2⟩
      rcases hk with hk | hk
      · exact h1 hk
      · exact h2 hk
    by_cases hp : handler.proto = offer.proto
    · simp [kms_sdp_rtp_avp_media_handler_init_answer, SDP_AUDIO_MEDIA, SDP_VIDEO_MEDIA, hk, hk2,
        hp, gst_sdp_media_set_media, gst_sdp_media_set_proto]
    · have hp2 : offer.proto ≠ handler.proto := fun hh => hp hh.symm
      simp [kms_sdp_rtp_avp_media_handler_init_answer, SDP_AUDIO_MEDIA, SDP_VIDEO_MEDIA, hk, hk2,
        hp, hp2, g_set_error, SdpAgentError.kind]
  · have hk2 : offer.media ≠ some "audio" ∧ offer.media ≠ some "video" :=
      ⟨fun hh => hk (Or.inl hh), fun hh => hk (Or.inr hh)⟩
    simp [kms_sdp_rtp_avp_media_handler_init_answer, SDP_AUDIO_MEDIA, SDP_VIDEO_MEDIA, hk, hk2,
      g_set_error, SdpAgentError.kind]

/-- C9: when `add_extmap (id, uri1)` has returned `TRUE`, a second
`add_extmap (id, uri2)` returns `FALSE` with an error set (code
`SDP_AGENT_UNEXPECTED_ERROR`) and leaves the handler as it was: `id` is still
mapped to `uri1`, and the first call left every other id as before. -/
theorem add_extmap_twice (self : KmsSdpRtpAvpMediaHandler) (id : Nat) (uri1 uri2 : String)
    (h1 : (kms_sdp_rtp_avp_media_handler_add_extmap self id uri1 none).1 = true) :
    (kms_sdp_rtp_avp_media_handler_add_extmap
        (kms_sdp_rtp_avp_media_handler_add_extmap self id uri1 none).2.1 id uri2 none).1 = false ∧
    (kms_sdp_rtp_avp_media_handler_add_extmap
        (kms_sdp_rtp_avp_media_handler_add_extmap self id uri1 none).2.1 id uri2 none).2.2 =
      some SDP_AGENT_UNEXPECTED_ERROR ∧
    (kms_sdp_rtp_avp_media_handler_add_extmap
        (kms_sdp_rtp_avp_media_handler_add_extmap self id uri1 none).2.1 id uri2 none).2.1 =
      (kms_sdp_rtp_avp_media_handler_add_extmap self id uri1 none).2.1 ∧
    g_hash_table_lookup (kms_sdp_rtp_avp_media_handler_add_extmap self id uri1 none).2.1.extmaps
      (id % 256) = some uri1 ∧
    ∀ k, k ≠ id % 256 →
      g_hash_table_lookup (kms_sdp_rtp_avp_media_handler_add_extmap self id uri1 none).2.1.extmaps k =
        g_hash_table_lookup self.extmaps k := by
  by_cases hc : g_hash_table_contains self.extmaps (id % 256) = true
  · simp [kms_sdp_rtp_avp_media_handler_add_extmap, hc] at h1
  · have hnone : List.find? (fun p => decide (p.1 = id % 256)) self.extmaps = none := by
      rw [List.find?_eq_none]
      intro p hp hpk
      apply hc
      simp only [g_hash_table_contains, List.any_eq_true]
      exact ⟨p, hp, hpk⟩
    have hc2 : g_hash_table_contains (self.extmaps ++ [(id % 256, uri1)]) (id % 256) = true := by
      simp [g_hash_table_contains]
    have hs : (kms_sdp_rtp_avp_media_handler_add_extmap self id uri1 none).2.1 =
        { self with extmaps := self.extmaps ++ [(id % 256, uri1)] } := by
      simp [kms_sdp_rtp_avp_media_handler_add_extmap, hc, g_hash_table_insert]
    rw [hs]
    refine ⟨?_, ?_, ?_, ?_, ?_⟩
    · simp [kms_sdp_rtp_avp_media_handler_add_extmap, hc2]
    · simp [kms_sdp_rtp_avp_media_handler_add_extmap, hc2, g_set_error]
    · simp [kms_sdp_rtp_avp_media_handler_add_extmap, hc2]
    · simp [g_hash_table_lookup, List.find?_append, hnone]
    · intro k hk
      have hk2 : ¬ (id % 256 = k) := fun hh => hk hh.symm
      simp only [g_hash_table_lookup, List.find?_append]
      cases hf : List.find? (fun p => decide (p.1 = k)) self.extmaps with
      | none => simp [hk2]
      | some p => simp

theorem add_extmap_twice_witness :
    (kms_sdp_rtp_avp_media_handler_add_extmap kms_sdp_rtp_avp_media_handler_new 5
      "urn:example:ext" none).1 = true ∧
    (kms_sdp_rtp_avp_media_handler_add_extmap
        (kms_sdp_rtp_avp_media_handler_add_extmap kms_sdp_rtp_avp_media_handler_new 5
          "urn:example:ext" none).2.1 5 "urn:example:other" none).1 = false ∧
    (kms_sdp_rtp_avp_media_handler_add_extmap
        (kms_sdp_rtp_avp_media_handler_add_extmap kms_sdp_rtp_avp_media_handler_new 5
          "urn:example:ext" none).2.1 5 "urn:example:other" none).2.2 =
      some SDP_AGENT_UNEXPECTED_ERROR ∧
    (kms_sdp_rtp_avp_media_handler_add_extmap
        (kms_sdp_rtp_avp_media_handler_add_extmap kms_sdp_rtp_avp_media_handler_new 5
          "urn:example:ext" none).2.1 5 "urn:example:other" none).2.1 =
      (kms_sdp_rtp_avp_media_handler_add_extmap kms_sdp_rtp_avp_media_handler_new 5
        "urn:example:ext" none).2.1 ∧
    g_hash_table_lookup (kms_sdp_rtp_avp_media_handler_add_extmap
        kms_sdp_rtp_avp_media_handler_new 5 "urn:example:ext" none).2.1.extmaps (5 % 256) =
      some "urn:example:ext" ∧
    ∀ k, k ≠ 5 % 256 →
      g_hash_table_lookup (kms_sdp_rtp_avp_media_handler_add_extmap
          kms_sdp_rtp_avp_media_handler_new 5 "urn:example:ext" none).2.1.extmaps k =
        g_hash_table_lookup kms_sdp_rtp_avp_media_handler_new.extmaps k :=
  ⟨by decide,
    add_extmap_twice kms_sdp_rtp_avp_media_handler_new 5 "urn:example:ext" "urn:example:other"
      (by decide)⟩

/-- C10: in an answer returned by `create_answer`, the `extmap` values are
exactly the `extmap` values of the offer whose URI (second token) is the URI of
some entry of the table of the handler, whatever its id: each is a verbatim copy
of an `extmap` value of the offer, and every such value of the offer is in the
answer. -/
theorem create_answer_extmaps (cat : Catalog) (ext : External) (hg : ext.Generic)
    (handler : KmsSdpRtpAvpMediaHandler) (offer : GstSDPMedia) (c : Created) (m : GstSDPMedia)
    (h : kms_sdp_rtp_avp_media_handler_create_answer cat ext handler offer = some c)
    (hm : c.media = some m) :
    (∀ v ∈ attribute_vals m "extmap",
      v ∈ attribute_vals offer "extmap" ∧
        ∃ p ∈ handler.extmaps, strv_index (g_strsplit v ' ') 1 = some (some p.2)) ∧
    (∀ v ∈ attribute_vals offer "extmap",
      (∃ p ∈ handler.extmaps, strv_index (g_strsplit v ' ') 1 = some (some p.2)) →
        v ∈ attribute_vals m "extmap") := by
  obtain ⟨-, -, -, -, -, -, -, -, hx, -, -⟩ :=
    create_answer_some cat ext hg handler offer c m h hm
  rw [hx]
  constructor
  · intro v hv
    exact (mem_answer_extmap_vals handler _ v).mp hv
  · intro v hv hp
    exact (mem_answer_extmap_vals handler _ v).mpr ⟨hv, hp⟩

theorem create_answer_extmaps_witness :
    base.Generic ∧
    kms_sdp_rtp_avp_media_handler_create_answer builtin base handler1 offer1 =
      some { media := some answer1, error := none } ∧
    ((∀ v ∈ attribute_vals answer1 "extmap",
      v ∈ attribute_vals offer1 "extmap" ∧
        ∃ p ∈ handler1.extmaps, strv_index (g_strsplit v ' ') 1 = some (some p.2)) ∧
    (∀ v ∈ attribute_vals offer1 "extmap",
      (∃ p ∈ handler1.extmaps, strv_index (g_strsplit v ' ') 1 = some (some p.2)) →
        v ∈ attribute_vals answer1 "extmap")) ∧
    attribute_vals offer1 "extmap" = ["1 urn:example:ext"] ∧
    handler1.extmaps = [(5, "urn:example:ext")] ∧
    attribute_vals answer1 "extmap" = ["1 urn:example:ext"] :=
  ⟨base_generic, create_answer_offer1,
    create_answer_extmaps builtin base base_generic handler1 offer1
      { media := some answer1, error := none } answer1 create_answer_offer1 rfl,
    by decide, by decide, by decide⟩

/-- C11: the AVP `can_insert_attribute` returns `FALSE` for an attribute whose
key is `rtpmap` or `extmap`, whatever its value, the offer and the answer; for
every other key it returns what the predicate of the parent class returns. -/
theorem can_insert_attribute_result (ext : External) (handler : KmsSdpRtpAvpMediaHandler)
    (offer answer : GstSDPMedia) (attr : GstSDPAttribute) :
    ((attr.key = "rtpmap" ∨ attr.key = "extmap") →
      kms_sdp_rtp_avp_media_handler_can_insert_attribute ext handler offer attr answer = false) ∧
    ((attr.key ≠ "rtpmap" ∧ attr.key ≠ "extmap") →
      kms_sdp_rtp_avp_media_handler_can_insert_attribute ext handler offer attr answer =
        ext.parent_can_insert_attribute handler offer attr answer) := by
  constructor
  · intro hk
    simp [kms_sdp_rtp_avp_media_handler_can_insert_attribute, hk]
  · rintro ⟨h1, h2⟩
    have hk : ¬ (attr.key = "rtpmap" ∨ attr.key = "extmap") := by
      rintro (h | h)
      · exact h1 h
      · exact h2 h
    simp only [kms_sdp_rtp_avp_media_handler_can_insert_attribute, hk, if_false]
    cases ext.parent_can_insert_attribute handler offer attr answer <;> rfl

/-- C12 as stated fails: `VP8` is the leading codec-name token of the video
catalog entry `VP8/90000`, yet `encoding_supported` is `FALSE` for `VP8` on a
video media. -/
theorem encoding_supported_not_leading_token :
    ({ payload := 97, name := "VP8/90000" } : KmsSdpRtpMap) ∈ builtin.video_fmts ∧
      (g_strsplit "VP8/90000" '/').head? = some "VP8" ∧
      encoding_supported builtin video_media (some "VP8") = false := by
  decide

/-- C12, amended: `encoding_supported` is `TRUE` exactly when the encoding
string of some catalog entry of the media is a prefix of the encoding asked for
(so `VP8/90000` is supported for video); for a media other than audio and video
it is `FALSE` for every encoding. -/
theorem encoding_supported_iff (cat : Catalog) (media : GstSDPMedia) (enc : Option String) :
    (encoding_supported cat media enc = true ↔
      ∃ maps is_audio, select_maps cat media.media = some (maps, is_audio) ∧
        ∃ mp ∈ maps, ∃ s, enc = some s ∧ mp.name.data.isPrefixOf s.data = true) ∧
    ((media.media ≠ some "audio" ∧ media.media ≠ some "video") →
      encoding_supported cat media enc = false) ∧
    encoding_supported builtin video_media (some "VP8/90000") = true := by
  refine ⟨?_, ?_, by decide⟩
  · unfold encoding_supported
    cases hs : select_maps cat media.media with
    | none => simp
    | some pr =>
      obtain ⟨maps, b⟩ := pr
      simp only [List.any_eq_true, Option.some.injEq, Prod.mk.injEq]
      constructor
      · rintro ⟨mp, hmp, hp⟩
        cases enc with
        | none => simp [ g_str_has_prefix] at hp
        | some s => exact ⟨maps, b, ⟨rfl, rfl⟩, mp, hmp, s, rfl, by simpa [ g_str_has_prefix] using hp⟩
      · rintro ⟨maps2, b2, ⟨rfl, rfl⟩, mp, hmp, s, rfl, hp⟩
        exact ⟨mp, hmp, by simpa [ g_str_has_prefix] using hp⟩
  · rintro ⟨h1, h2⟩
    simp [encoding_supported, select_maps, SDP_AUDIO_MEDIA, SDP_VIDEO_MEDIA, h1, h2]

/-- C13 as stated fails: in `offer_no_uri` no format satisfies
`format_supported`, yet `add_answer_attributes_impl` returns `FALSE`, because
the `extmap` attribute `3` of the offer has no URI. -/
theorem add_answer_attributes_fails_without_uri :
    (∀ fmt ∈ offer_no_uri.fmts, format_supported builtin offer_no_uri fmt = some false) ∧
      (kms_sdp_rtp_avp_media_handler_add_answer_attributes_impl builtin base handler1
        offer_no_uri (answer_after_init offer_no_uri) none).map (fun r => (r.ok, r.error)) =
        some (false, some SDP_AGENT_UNEXPECTED_ERROR) := by
  decide

/-- C13, amended: for an offer in which `format_supported` is `FALSE` for every
format (also an offer with no formats) and every `extmap` attribute has a URI
token, `add_answer_attributes_impl` returns `TRUE` after the parent step
returned `TRUE`, and leaves an answer that had no formats with an empty format
list and port 0. -/
theorem add_answer_attributes_none_supported (cat : Catalog) (ext : External)
    (hg : ext.Generic) (handler : KmsSdpRtpAvpMediaHandler) (offer answer : GstSDPMedia)
    (e : Option SdpAgentError)
    (hpok : (ext.parent_add_answer_attributes handler offer answer e).ok = true)
    (ha : answer.fmts = [])
    (hnone : ∀ fmt ∈ offer.fmts, format_supported cat offer fmt = some false)
    (huri : ∀ v ∈ attribute_vals offer "extmap",
      ∃ uri, strv_index (g_strsplit v ' ') 1 = some (some uri)) :
    ∃ r, kms_sdp_rtp_avp_media_handler_add_answer_attributes_impl cat ext handler offer answer e =
        some r ∧ r.ok = true ∧ r.media.fmts = [] ∧ r.media.port = 0 := by
  have hf : (ext.parent_add_answer_attributes handler offer answer e).media.fmts = [] := by
    rw [(hg.answer_step handler offer answer e).2.2.1, ha]
  unfold kms_sdp_rtp_avp_media_handler_add_answer_attributes_impl
  dsimp only
  simp only [hpok, Bool.not_true, Bool.false_eq_true, if_false,
    add_answer_fmts_loop_none_supported cat offer offer.fmts hnone, hf, List.length_nil,
    gt_iff_lt, lt_self_iff_false, gst_sdp_media_set_port_info,
    kms_sdp_rtp_avp_media_handler_add_supported_extmaps,
    add_supported_extmaps_loop_defined handler _ huri, add_supported_rtpmap_attrs,
    with_attributes, add_supported_rtpmap_attrs_loop]
  exact ⟨_, rfl, rfl, rfl, rfl⟩

theorem add_answer_attributes_none_supported_witness :
    base.Generic ∧
    (base.parent_add_answer_attributes handler1 offer_unsupported
      (answer_after_init offer_unsupported) none).ok = true ∧
    (answer_after_init offer_unsupported).fmts = [] ∧
    (∀ fmt ∈ offer_unsupported.fmts, format_supported builtin offer_unsupported fmt = some false) ∧
    (∀ v ∈ attribute_vals offer_unsupported "extmap",
      ∃ uri, strv_index (g_strsplit v ' ') 1 = some (some uri)) ∧
    ∃ r, kms_sdp_rtp_avp_media_handler_add_answer_attributes_impl builtin base handler1
        offer_unsupported (answer_after_init offer_unsupported) none =
        some r ∧ r.ok = true ∧ r.media.fmts = [] ∧ r.media.port = 0 :=
  ⟨base_generic, rfl, rfl, by decide, offer_unsupported_uris,
    add_answer_attributes_none_supported builtin base base_generic handler1 offer_unsupported
      (answer_after_init offer_unsupported) none rfl rfl (by decide) offer_unsupported_uris⟩

/-- C14: in an answer returned by `create_answer`, a format that has no `rtpmap`
in the offer and whose number is outside 0..34 is never in the format list;
so for an offer with two formats, one supported and one with no `rtpmap` and a
number outside the static table, the format list of the answer is the supported
format alone (offer 98 with `98 OPUS/48000/2` and 120: answer 98). -/
theorem create_answer_drops_unknown_format (cat : Catalog) (ext : External) (hg : ext.Generic)
    (handler : KmsSdpRtpAvpMediaHandler) (offer : GstSDPMedia) (c : Created) (m : GstSDPMedia)
    (h : kms_sdp_rtp_avp_media_handler_create_answer cat ext handler offer = some c)
    (hm : c.media = some m) :
    (∀ fmt, sdp_utils_get_attr_map_value offer "rtpmap" fmt = none →
      fmt_in_static_range fmt = false → fmt ∉ m.fmts) ∧
    (∀ d x, offer.fmts = [d, x] → format_supported cat offer d = some true →
      sdp_utils_get_attr_map_value offer "rtpmap" x = none → fmt_in_static_range x = false →
      m.fmts = [d]) := by
  obtain ⟨-, -, -, -, -, -, hf, -, -, hstat, -⟩ :=
    create_answer_some cat ext hg handler offer c m h hm
  have h1 : ∀ fmt, sdp_utils_get_attr_map_value offer "rtpmap" fmt = none →
      fmt_in_static_range fmt = false → fmt ∉ m.fmts := by
    intro fmt hno hout hin
    have hs := in_static_range_of_static_payload_type _ (hstat fmt hin hno)
    unfold fmt_in_static_range at hout
    rw [hs] at hout
    exact absurd hout (by simp)
  refine ⟨h1, ?_⟩
  intro d x hfm hd hno hout
  have hx : format_supported cat offer x ≠ some true := by
    intro hxs
    apply h1 x hno hout
    rw [hf, hfm]
    simp [hxs]
  rw [hf, hfm]
  simp [hd, hx]

theorem create_answer_drops_unknown_format_witness :
    base.Generic ∧
    kms_sdp_rtp_avp_media_handler_create_answer builtin base handler1 offer_mixed =
      some { media := some answer_mixed, error := none } ∧
    offer_mixed.fmts = ["98", "120"] ∧
    format_supported builtin offer_mixed "98" = some true ∧
    sdp_utils_get_attr_map_value offer_mixed "rtpmap" "120" = none ∧
    fmt_in_static_range "120" = false ∧
    "120" ∉ answer_mixed.fmts ∧ answer_mixed.fmts = ["98"] :=
  ⟨base_generic, create_answer_offer_mixed, rfl, by decide, by decide, by decide,
    (create_answer_drops_unknown_format builtin base base_generic handler1 offer_mixed
      { media := some answer_mixed, error := none } answer_mixed create_answer_offer_mixed
      rfl).1 "120" (by decide) (by decide),
    (create_answer_drops_unknown_format builtin base base_generic handler1 offer_mixed
      { media := some answer_mixed, error := none } answer_mixed create_answer_offer_mixed
      rfl).2 "98" "120" rfl (by decide) (by decide) (by decide)⟩

/-- C15 fails on the code: with a catalog whose audio entry uses the reserved
payload number 1, `add_supported_fmts` sets `SDP_AGENT_UNEXPECTED_ERROR` but
goes on, adds the format and returns `TRUE`, and `create_offer` returns an
offer (with the error slot set); the sibling violation, an audio entry with the
video number 25, does return `FALSE`. -/
theorem add_supported_fmts_reserved_not_fatal :
    rtpmaps_at 1 = some none ∧
      kms_sdp_rtp_avp_media_handler_add_supported_fmts catalog_reserved
        (offer_after_init kms_sdp_rtp_avp_media_handler_new "audio") none =
        some { ok := true,
               media := with_fmts (offer_after_init kms_sdp_rtp_avp_media_handler_new "audio") ["1"],
               error := some SDP_AGENT_UNEXPECTED_ERROR } ∧
      kms_sdp_rtp_avp_media_handler_create_offer catalog_reserved base
        kms_sdp_rtp_avp_media_handler_new (some "audio") =
        some { media := some offer_reserved, error := some SDP_AGENT_UNEXPECTED_ERROR } ∧
      kms_sdp_rtp_avp_media_handler_add_supported_fmts catalog_video_number
        (offer_after_init kms_sdp_rtp_avp_media_handler_new "audio") none =
        some { ok := false,
               media := offer_after_init kms_sdp_rtp_avp_media_handler_new "audio",
               error := some SDP_AGENT_UNEXPECTED_ERROR } := by
  decide

/-- C16 fails on the code: the check of the static range is
`0 <= pt <= G_N_ELEMENTS (rtpmaps)`, which the number 35 passes although the
table has the 35 entries 0..34; under that check `format_supported`, the answer
`rtpmap` copy step and the validation of offer formats read `rtpmaps[35]`, past
the end of the table, and the offer step omits the `rtpmap` of a catalog entry
with payload 35. -/
theorem static_range_check_admits_35 :
    G_N_ELEMENTS_rtpmaps = 35 ∧
      (∀ pt : Int, in_default_pt_bound pt = true ↔ (0 ≤ pt ∧ pt ≤ 35)) ∧
      in_default_pt_bound 35 = true ∧
      rtpmaps_at 34 = some (some "H263/90000") ∧
      rtpmaps_at 35 = none ∧
      format_supported builtin offer_35 "35" = none ∧
      add_supported_rtpmap_attrs builtin offer_35 offer_35 none = none ∧
      kms_sdp_rtp_avp_media_handler_add_supported_fmts catalog_35
        (offer_after_init kms_sdp_rtp_avp_media_handler_new "audio") none = none ∧
      offer_rtpmaps_of catalog_35.audio_fmts "35" = [] := by
  have hn : G_N_ELEMENTS_rtpmaps = 35 := by decide
  refine ⟨hn, ?_, by decide, by decide, by decide, by decide, by decide, by decide, by decide⟩
  intro pt
  simp [in_default_pt_bound, hn]

/-- C17 as stated fails: for `offer_no_uri`, whose `extmap` attribute `3` has no
URI token, the extension step returns `FALSE` and `create_answer` returns no
answer, but the error code is `SDP_AGENT_UNEXPECTED_ERROR`, whose kind is not
`InvalidParameter`. -/
theorem add_supported_extmaps_not_invalid_parameter :
    strv_index (g_strsplit "3" ' ') 1 = some none ∧
      (kms_sdp_rtp_avp_media_handler_add_supported_extmaps handler1 offer_no_uri
        (answer_after_init offer_no_uri) none).map (fun r => (r.ok, r.error)) =
        some (false, some SDP_AGENT_UNEXPECTED_ERROR) ∧
      kms_sdp_rtp_avp_media_handler_create_answer builtin base handler1 offer_no_uri =
        some { media := none, error := some SDP_AGENT_UNEXPECTED_ERROR } ∧
      SdpAgentError.kind SDP_AGENT_UNEXPECTED_ERROR ≠ NegotiationErrorKind.InvalidParameter := by
  decide

/-- C17, amended: for an offer whose `extmap` values are not empty and one of
which has a first token but no second (such as `3`), the extension step returns
`FALSE` with the error code `SDP_AGENT_UNEXPECTED_ERROR` (kind
`UnexpectedError`), and `create_answer` returns no answer. -/
theorem add_supported_extmaps_no_uri (cat : Catalog) (ext : External)
    (handler : KmsSdpRtpAvpMediaHandler) (offer : GstSDPMedia) (v : String)
    (hv : v ∈ attribute_vals offer "extmap")
    (hno : strv_index (g_strsplit v ' ') 1 = some none)
    (hne : ∀ w ∈ attribute_vals offer "extmap", w ≠ "") :
    (∀ answer, ∃ r,
      kms_sdp_rtp_avp_media_handler_add_supported_extmaps handler offer answer none = some r ∧
        r.ok = false ∧ r.error = some SDP_AGENT_UNEXPECTED_ERROR ∧
        r.error.map SdpAgentError.kind = some NegotiationErrorKind.UnexpectedError) ∧
    (∀ c, kms_sdp_rtp_avp_media_handler_create_answer cat ext handler offer = some c →
      c.media = none) := by
  constructor
  · intro answer
    obtain ⟨r, hr, hok, herr⟩ := add_supported_extmaps_loop_no_uri handler
      (attribute_vals offer "extmap") hne ⟨v, hv, hno⟩ answer none
    refine ⟨r, hr, hok, herr, ?_⟩
    rw [herr]
    rfl
  · intro c hc
    cases hm : c.media with
    | none => rfl
    | some m =>
      obtain ⟨uri, hu⟩ := create_answer_uris cat ext handler offer c m hc hm v hv
      rw [hno] at hu
      exact absurd hu (by simp)

theorem add_supported_extmaps_no_uri_witness :
    "3" ∈ attribute_vals offer_no_uri "extmap" ∧
    strv_index (g_strsplit "3" ' ') 1 = some none ∧
    (∀ w ∈ attribute_vals offer_no_uri "extmap", w ≠ "") ∧
    (∀ answer, ∃ r,
      kms_sdp_rtp_avp_media_handler_add_supported_extmaps handler1 offer_no_uri answer none =
        some r ∧
        r.ok = false ∧ r.error = some SDP_AGENT_UNEXPECTED_ERROR ∧
        r.error.map SdpAgentError.kind = some NegotiationErrorKind.UnexpectedError) ∧
    (∀ c, kms_sdp_rtp_avp_media_handler_create_answer builtin base handler1 offer_no_uri =
      some c → c.media = none) :=
  ⟨by decide, by decide, by decide,
    add_supported_extmaps_no_uri builtin base handler1 offer_no_uri "3" (by decide) (by decide)
      (by decide)⟩

/-- C18 fails on the code: for an answer that holds the format 120, which has
no `rtpmap` in the offer and is not a static payload type,
`add_supported_rtpmap_attrs` returns `FALSE` but sets no error: the error slot
stays empty, where the claim has `UnexpectedError`. -/
theorem add_supported_rtpmap_attrs_sets_no_error :
    "120" ∈ answer_120.fmts ∧
      sdp_utils_get_attr_map_value offer_unsupported "rtpmap" "120" = none ∧
      fmt_static_payload_type "120" = false ∧
      add_supported_rtpmap_attrs builtin offer_unsupported answer_120 none =
        some { ok := false, media := answer_120, error := none } := by
  decide

/-- C19: in an answer returned by `create_answer`, the `extmap` values are the
`extmap` values of the offer, in the order of the offer, each repeated as many
times as the table of the handler has entries whose URI is the URI token of the
value: no copy when none matches, two copies when two ids share the URI. -/
theorem create_answer_extmap_copies (cat : Catalog) (ext : External) (hg : ext.Generic)
    (handler : KmsSdpRtpAvpMediaHandler) (offer : GstSDPMedia) (c : Created) (m : GstSDPMedia)
    (h : kms_sdp_rtp_avp_media_handler_create_answer cat ext handler offer = some c)
    (hm : c.media = some m) :
    attribute_vals m "extmap" =
        ((attribute_vals offer "extmap").map
          (fun v => List.replicate (matching_mappings handler v) v)).flatten ∧
      (∀ v ∈ attribute_vals offer "extmap",
        ∃ uri, strv_index (g_strsplit v ' ') 1 = some (some uri) ∧
          matching_mappings handler v =
            handler.extmaps.countP (fun p => decide (uri = p.2))) := by
  obtain ⟨-, -, -, -, -, -, -, -, hx, -, huri⟩ :=
    create_answer_some cat ext hg handler offer c m h hm
  constructor
  · rw [hx]
    unfold answer_extmap_vals
    congr 1
    apply List.map_congr_left
    intro v _
    exact answer_extmap_vals_of_eq_replicate handler v
  · intro v hv
    obtain ⟨uri, hu⟩ := huri v hv
    exact ⟨uri, hu, by simp [matching_mappings, hu]⟩

theorem create_answer_extmap_copies_witness :
    base.Generic ∧
    kms_sdp_rtp_avp_media_handler_create_answer builtin base handler2 offer2 =
      some { media := some answer2, error := none } ∧
    (attribute_vals answer2 "extmap" =
        ((attribute_vals offer2 "extmap").map
          (fun v => List.replicate (matching_mappings handler2 v) v)).flatten ∧
      (∀ v ∈ attribute_vals offer2 "extmap",
        ∃ uri, strv_index (g_strsplit v ' ') 1 = some (some uri) ∧
          matching_mappings handler2 v =
            handler2.extmaps.countP (fun p => decide (uri = p.2)))) ∧
    attribute_vals offer2 "extmap" = ["1 urn:example:ext", "2 urn:example:other"] ∧
    matching_mappings handler2 "1 urn:example:ext" = 2 ∧
    matching_mappings handler2 "2 urn:example:other" = 0 ∧
    attribute_vals answer2 "extmap" = ["1 urn:example:ext", "1 urn:example:ext"] :=
  ⟨base_generic, create_answer_offer2,
    create_answer_extmap_copies builtin base base_generic handler2 offer2
      { media := some answer2, error := none } answer2 create_answer_offer2 rfl,
    by decide, by decide, by decide, by decide⟩

/-- C20: in an offer returned by `create_offer`, the `extmap` values are, as a
multiset, the values `<id> <uri>` of the entries of the table of the handler,
one for each entry, and among the `extmap` and `rtpmap` attributes of the offer
all the `extmap` attributes come first (the parent step is taken to append
attributes). -/
theorem create_offer_extmaps (cat : Catalog) (ext : External) (hg : ext.Generic)
    (happ : ∀ h m e, ∃ l, (ext.parent_add_offer_attributes h m e).media.attributes =
      m.attributes ++ l)
    (handler : KmsSdpRtpAvpMediaHandler) (hid : ∀ p ∈ handler.extmaps, p.1 < 256)
    (media : Option String) (c : Created) (m : GstSDPMedia)
    (h : kms_sdp_rtp_avp_media_handler_create_offer cat ext handler media = some c)
    (hm : c.media = some m) :
    (attribute_vals m "extmap").Perm
        (handler.extmaps.map (fun p => print_u p.1 ++ " " ++ p.2)) ∧
      ∃ R, (∀ a ∈ R, a.key = "rtpmap") ∧
        m.attributes.filter (fun a => decide (a.key = "extmap" ∨ a.key = "rtpmap")) =
          handler.extmaps.map (fun p => extmap_attr (print_u p.1 ++ " " ++ p.2)) ++ R := by
  obtain ⟨kind, hkm, hkind, -⟩ := create_offer_some cat ext hg handler media c m h hm
  subst hkm
  cases hr : kms_sdp_rtp_avp_media_handler_add_offer_attributes cat ext handler
      (offer_after_init handler kind) none with
  | none =>
    have h0 := init_offer_accepts handler kind hkind none
    simp only [gst_sdp_media_new] at h0
    simp [kms_sdp_rtp_avp_media_handler_create_offer, gst_sdp_media_new, h0, hr] at h
  | some r =>
    rw [create_offer_unfold cat ext handler kind hkind r hr] at h
    simp only [Option.some.injEq] at h
    subst h
    unfold created_of at hm
    split at hm
    · rename_i hok
      simp only [Option.some.injEq] at hm
      subst hm
      obtain ⟨F, R, e3, hR, hreq⟩ := add_offer_attributes_ok cat ext handler _ none r hr hok
      have hE : handler.extmaps.map offer_extmap_of =
          handler.extmaps.map (fun p => extmap_attr (print_u p.1 ++ " " ++ p.2)) := by
        apply List.map_congr_left
        intro p hp
        simp [offer_extmap_of, extmap_attr, Nat.mod_eq_of_lt (hid p hp)]
      have hX : (with_attributes (with_attributes (with_fmts (offer_after_init handler kind) F)
          (handler.extmaps.map offer_extmap_of)) R).attributes =
          handler.extmaps.map (fun p => extmap_attr (print_u p.1 ++ " " ++ p.2)) ++ R := by
        simp [with_attributes, with_fmts, offer_after_init, hE]
      obtain ⟨l, hl⟩ := happ handler (with_attributes (with_attributes
        (with_fmts (offer_after_init handler kind) F) (handler.extmaps.map offer_extmap_of)) R) e3
      obtain ⟨-, -, -, -, -, gr, gx⟩ := hg.offer_step handler (with_attributes (with_attributes
        (with_fmts (offer_after_init handler kind) F) (handler.extmaps.map offer_extmap_of)) R) e3
      rw [← hreq] at hl gr gx
      rw [hX] at hl
      have hEk : ∀ a ∈ handler.extmaps.map (fun p => extmap_attr (print_u p.1 ++ " " ++ p.2)),
          a.key = "extmap" := by
        intro a ha
        obtain ⟨p, -, rfl⟩ := List.mem_map.mp ha
        rfl
      have hlr : ∀ a ∈ l, a.key ≠ "rtpmap" := by
        apply vals_nil_filter_nil
        have : attribute_vals r.media "rtpmap" =
            attribute_vals (with_attributes (with_attributes
              (with_fmts (offer_after_init handler kind) F)
              (handler.extmaps.map offer_extmap_of)) R) "rtpmap" ++
            (l.filter (fun a => decide (a.key = "rtpmap"))).map (fun a => a.value) := by
          simp only [attribute_vals, hl, hX, List.filter_append, List.map_append,
            List.append_assoc]
        rw [gr] at this
        exact (List.self_eq_append_right.mp this)
      have hlx : ∀ a ∈ l, a.key ≠ "extmap" := by
        apply vals_nil_filter_nil
        have : attribute_vals r.media "extmap" =
            attribute_vals (with_attributes (with_attributes
              (with_fmts (offer_after_init handler kind) F)
              (handler.extmaps.map offer_extmap_of)) R) "extmap" ++
            (l.filter (fun a => decide (a.key = "extmap"))).map (fun a => a.value) := by
          simp only [attribute_vals, hl, hX, List.filter_append, List.map_append,
            List.append_assoc]
        rw [gx] at this
        exact (List.self_eq_append_right.mp this)
      have f1 : (handler.extmaps.map (fun p => extmap_attr (print_u p.1 ++ " " ++ p.2))).filter
          (fun a => decide (a.key = "extmap")) =
          handler.extmaps.map (fun p => extmap_attr (print_u p.1 ++ " " ++ p.2)) :=
        List.filter_eq_self.mpr (fun a ha => by simp [hEk a ha])
      have f2 : R.filter (fun a => decide (a.key = "extmap")) = [] :=
        List.filter_eq_nil_iff.mpr (fun a ha => by simp [hR a ha])
      have f3 : l.filter (fun a => decide (a.key = "extmap")) = [] :=
        List.filter_eq_nil_iff.mpr (fun a ha => by simp [hlx a ha])
      have g1 : (handler.extmaps.map (fun p => extmap_attr (print_u p.1 ++ " " ++ p.2))).filter
          (fun a => decide (a.key = "extmap" ∨ a.key = "rtpmap")) =
          handler.extmaps.map (fun p => extmap_attr (print_u p.1 ++ " " ++ p.2)) :=
        List.filter_eq_self.mpr (fun a ha => by simp [hEk a ha])
      have g2 : R.filter (fun a => decide (a.key = "extmap" ∨ a.key = "rtpmap")) = R :=
        List.filter_eq_self.mpr (fun a ha => by simp [hR a ha])
      have g3 : l.filter (fun a => decide (a.key = "extmap" ∨ a.key = "rtpmap")) = [] :=
        List.filter_eq_nil_iff.mpr (fun a ha => by simp [hlx a ha, hlr a ha])
      constructor
      · have hv : attribute_vals r.media "extmap" =
            handler.extmaps.map (fun p => print_u p.1 ++ " " ++ p.2) := by
          simp only [attribute_vals, hl, List.filter_append, f1, f2, f3, List.append_nil,
            List.map_map]
          apply List.map_congr_left
          intro p _
          rfl
        rw [hv]
      · refine ⟨R, hR, ?_⟩
        rw [hl]
        simp only [List.filter_append, g1, g2, g3, List.append_nil]
    · exact absurd hm (by simp)

theorem create_offer_extmaps_witness :
    base.Generic ∧
    (∀ h m e, ∃ l, (base.parent_add_offer_attributes h m e).media.attributes =
      m.attributes ++ l) ∧
    (∀ p ∈ handler2.extmaps, p.1 < 256) ∧
    kms_sdp_rtp_avp_media_handler_create_offer builtin base handler2 (some "audio") =
      some { media := some audio_offer2, error := none } ∧
    ((attribute_vals audio_offer2 "extmap").Perm
        (handler2.extmaps.map (fun p => print_u p.1 ++ " " ++ p.2)) ∧
      ∃ R, (∀ a ∈ R, a.key = "rtpmap") ∧
        audio_offer2.attributes.filter (fun a => decide (a.key = "extmap" ∨ a.key = "rtpmap")) =
          handler2.extmaps.map (fun p => extmap_attr (print_u p.1 ++ " " ++ p.2)) ++ R) ∧
    attribute_vals audio_offer2 "extmap" = ["5 urn:example:ext", "7 urn:example:ext"] :=
  ⟨base_generic, fun _ m _ => ⟨[], by simp [base]⟩, by decide, create_offer_audio_handler2,
    create_offer_extmaps builtin base base_generic (fun _ m _ => ⟨[], by simp [base]⟩) handler2
      (by decide) (some "audio") { media := some audio_offer2, error := none } audio_offer2
      create_offer_audio_handler2 rfl,
    by decide⟩

/-- C21 as stated fails: on a new handler `add_extmap (0, uri)` returns `TRUE`
and leaves the id 0 registered. -/
theorem add_extmap_accepts_id_zero :
    kms_sdp_rtp_avp_media_handler_add_extmap kms_sdp_rtp_avp_media_handler_new 0
        "urn:example:ext" none =
      (true, { proto := some "RTP/AVP", extmaps := [(0, "urn:example:ext")] }, none) ∧
    g_hash_table_lookup (add_extmap_calls [(0, "urn:example:ext")]
      kms_sdp_rtp_avp_media_handler_new).extmaps 0 = some "urn:example:ext" := by
  decide

/-- C21, amended: every mapping held in the table of a handler after a sequence
of `add_extmap` calls from the empty table has an id in 0..255; the id 0 is
accepted like any other. -/
theorem add_extmap_calls_id_range (calls : List (Nat × String)) :
    (∀ p ∈ (add_extmap_calls calls kms_sdp_rtp_avp_media_handler_new).extmaps,
      0 ≤ p.1 ∧ p.1 ≤ 255) ∧
    (∀ uri, (0, uri) ∈ (add_extmap_calls [(0, uri)] kms_sdp_rtp_avp_media_handler_new).extmaps) := by
  constructor
  · intro p hp
    have h := add_extmap_calls_ids calls kms_sdp_rtp_avp_media_handler_new
      (by intro q hq; exact absurd hq (by simp [kms_sdp_rtp_avp_media_handler_new,
        kms_sdp_rtp_avp_media_handler_constructor])) p hp
    omega
  · intro uri
    simp [add_extmap_calls, kms_sdp_rtp_avp_media_handler_add_extmap,
      kms_sdp_rtp_avp_media_handler_new, kms_sdp_rtp_avp_media_handler_constructor,
      g_hash_table_contains, g_hash_table_insert]

/-- C22 as stated fails: for `offer_no_uri` the parent step adds no formats and
returns `TRUE` and every write to the answer returns `GST_SDP_OK`, yet
`add_answer_attributes_impl` returns `FALSE`: the extension step rejects the
`extmap` attribute without URI. -/
theorem add_answer_attributes_fails_without_write_failure :
    (base.parent_add_answer_attributes handler1 offer_no_uri (answer_after_init offer_no_uri)
      none) = { ok := true, media := answer_after_init offer_no_uri, error := none } ∧
    (∀ m key value, (gst_sdp_media_add_attribute m key value).1 = GST_SDP_OK) ∧
    (∀ m fmt, (gst_sdp_media_add_format m fmt).1 = GST_SDP_OK) ∧
    (∀ m port num_ports, (gst_sdp_media_set_port_info m port num_ports).1 = GST_SDP_OK) ∧
    kms_sdp_rtp_avp_media_handler_add_answer_attributes_impl builtin base handler1 offer_no_uri
      (answer_after_init offer_no_uri) none =
      some { ok := false, media := answer_no_uri_failed,
             error := some SDP_AGENT_UNEXPECTED_ERROR } := by
  refine ⟨rfl, fun _ _ _ => rfl, fun _ _ => rfl, fun _ _ _ => rfl, by decide⟩

/-- C22, amended: when the parent step adds no formats to an answer that had
none, every format the format loop placed in the answer passes the test of
`add_supported_rtpmap_attrs` again, so that step returns `TRUE` (its failure
branches are not reached); `add_answer_attributes_impl` returns `FALSE` only if
the parent step returned `FALSE` or an `extmap` attribute of the offer has no
URI token (the writes to the answer do not fail). -/
theorem add_answer_attributes_failure_causes (cat : Catalog) (ext : External) (hg : ext.Generic)
    (handler : KmsSdpRtpAvpMediaHandler) (offer answer : GstSDPMedia)
    (e : Option SdpAgentError) (r : Ret) (ha : answer.fmts = [])
    (h : kms_sdp_rtp_avp_media_handler_add_answer_attributes_impl cat ext handler offer answer e =
      some r) :
    (∀ r1, add_answer_fmts_loop cat offer offer.fmts
        (ext.parent_add_answer_attributes handler offer answer e).media
        (ext.parent_add_answer_attributes handler offer answer e).error = some r1 →
      ∀ a2 e2, a2.fmts = r1.media.fmts →
        ∃ r2, add_supported_rtpmap_attrs cat offer a2 e2 = some r2 ∧ r2.ok = true) ∧
    (r.ok = false →
      (ext.parent_add_answer_attributes handler offer answer e).ok = false ∨
        ∃ v ∈ attribute_vals offer "extmap", strv_index (g_strsplit v ' ') 1 = some none) := by
  have hf0 : (ext.parent_add_answer_attributes handler offer answer e).media.fmts = [] := by
    rw [(hg.answer_step handler offer answer e).2.2.1, ha]
  have part1 : ∀ r1, add_answer_fmts_loop cat offer offer.fmts
        (ext.parent_add_answer_attributes handler offer answer e).media
        (ext.parent_add_answer_attributes handler offer answer e).error = some r1 →
      ∀ a2 e2, a2.fmts = r1.media.fmts →
        ∃ r2, add_supported_rtpmap_attrs cat offer a2 e2 = some r2 ∧ r2.ok = true := by
    intro r1 h1 a2 e2 ha2
    have hr1 := add_answer_fmts_loop_eq cat offer offer.fmts _ _ r1 h1
    unfold add_supported_rtpmap_attrs
    apply add_supported_rtpmap_attrs_loop_ok
    intro fmt hfmt
    rw [ha2, hr1] at hfmt
    simp only [with_fmts, hf0, List.nil_append, List.mem_filter, decide_eq_true_eq] at hfmt
    exact hfmt.2
  refine ⟨part1, ?_⟩
  intro hok
  unfold kms_sdp_rtp_avp_media_handler_add_answer_attributes_impl at h
  dsimp only at h
  by_cases h0 : (ext.parent_add_answer_attributes handler offer answer e).ok = true
  · right
    simp only [h0, Bool.not_true, Bool.false_eq_true, if_false] at h
    cases h1 : add_answer_fmts_loop cat offer offer.fmts
        (ext.parent_add_answer_attributes handler offer answer e).media
        (ext.parent_add_answer_attributes handler offer answer e).error with
    | none => rw [h1] at h; exact absurd h (by simp)
    | some r1 =>
      have p1 := part1 r1 h1
      rw [h1] at h
      have hr1 := add_answer_fmts_loop_eq cat offer offer.fmts _ _ r1 h1
      have hr1ok : r1.ok = true := by rw [hr1]
      simp only [hr1ok, Bool.not_true, Bool.false_eq_true, if_false, gst_sdp_media_set_port_info,
        kms_sdp_rtp_avp_media_handler_add_supported_extmaps] at h
      split at h
      · exact absurd h (by simp)
      · rename_i r3 h3
        by_cases hok3 : r3.ok = true
        · simp only [hok3, Bool.not_true, Bool.false_eq_true, if_false] at h
          obtain ⟨e3, -⟩ := add_supported_extmaps_loop_eq handler _ _ _ r3 h3 hok3
          have hfm : r3.media.fmts = r1.media.fmts := by rw [e3]; rfl
          obtain ⟨r2, hr2, hr2ok⟩ := p1 r3.media r3.error hfm
          rw [hr2] at h
          simp only [Option.some.injEq] at h
          subst h
          rw [hr2ok] at hok
          exact absurd hok (by simp)
        · have hok3' : r3.ok = false := by simpa using hok3
          exact add_supported_extmaps_loop_fails handler _ _ _ r3 h3 hok3'
  · left
    simpa using h0

theorem add_answer_attributes_failure_causes_witness :
    base.Generic ∧ (answer_after_init offer_no_uri).fmts = [] ∧
    kms_sdp_rtp_avp_media_handler_add_answer_attributes_impl builtin base handler1 offer_no_uri
      (answer_after_init offer_no_uri) none =
      some { ok := false, media := answer_no_uri_failed,
             error := some SDP_AGENT_UNEXPECTED_ERROR } ∧
    ((∀ r1, add_answer_fmts_loop builtin offer_no_uri offer_no_uri.fmts
        (base.parent_add_answer_attributes handler1 offer_no_uri
          (answer_after_init offer_no_uri) none).media
        (base.parent_add_answer_attributes handler1 offer_no_uri
          (answer_after_init offer_no_uri) none).error = some r1 →
      ∀ a2 e2, a2.fmts = r1.media.fmts →
        ∃ r2, add_supported_rtpmap_attrs builtin offer_no_uri a2 e2 = some r2 ∧ r2.ok = true) ∧
    ((false : Bool) = false →
      (base.parent_add_answer_attributes handler1 offer_no_uri
        (answer_after_init offer_no_uri) none).ok = false ∨
        ∃ v ∈ attribute_vals offer_no_uri "extmap",
          strv_index (g_strsplit v ' ') 1 = some none)) :=
  ⟨base_generic, rfl, by decide,
    add_answer_attributes_failure_causes builtin base base_generic handler1 offer_no_uri
      (answer_after_init offer_no_uri) none
      { ok := false, media := answer_no_uri_failed, error := some SDP_AGENT_UNEXPECTED_ERROR }
      rfl (by decide)⟩

/-- C23: with the built-in catalogs, for a format with no `rtpmap` attribute in
the offer, `format_supported` is `TRUE` exactly when the media of the offer is
audio and the number of the format is 0 (PCMU), both for the number `atoi` reads
and for a number printed in decimal; for a video offer it is `FALSE` for every
static number 0..34. -/
theorem format_supported_static_acceptance (offer : GstSDPMedia) :
    (∀ fmt, sdp_utils_get_attr_map_value offer "rtpmap" fmt = none →
      (format_supported builtin offer fmt = some true ↔
        offer.media = some "audio" ∧ atoi fmt = some 0)) ∧
    (∀ n : Nat, sdp_utils_get_attr_map_value offer "rtpmap" (print_u n) = none →
      (format_supported builtin offer (print_u n) = some true ↔
        offer.media = some "audio" ∧ n = 0)) ∧
    (∀ n : Nat, n ≤ 34 → sdp_utils_get_attr_map_value offer "rtpmap" (print_u n) = none →
      offer.media = some "video" → format_supported builtin offer (print_u n) = some false) ∧
    (format_supported builtin audio_offer_static "0" = some true ∧
      format_supported builtin audio_offer_static "8" = some false ∧
      format_supported builtin video_offer_static "0" = some false ∧
      format_supported builtin video_offer_static "34" = some false) := by
  have hn : G_N_ELEMENTS_rtpmaps = 35 := by decide
  have part1 : ∀ fmt, sdp_utils_get_attr_map_value offer "rtpmap" fmt = none →
      (format_supported builtin offer fmt = some true ↔
        offer.media = some "audio" ∧ atoi fmt = some 0) := by
    intro fmt hno
    rw [format_supported_no_rtpmap builtin offer fmt hno]
    cases atoi fmt with
    | none => simp
    | some pt =>
      simp only [Option.some.injEq]
      by_cases hb : in_default_pt_bound pt = true
      · rw [if_pos hb]
        simp only [in_default_pt_bound, hn, Bool.and_eq_true, decide_eq_true_eq] at hb
        have hle : pt.toNat ≤ 35 := by omega
        rw [(static_accept_builtin offer.media pt.toNat hle).1]
        have hz : pt.toNat = 0 ↔ pt = 0 := by omega
        rw [hz]
      · rw [if_neg hb]
        simp only [in_default_pt_bound, hn, Bool.and_eq_true, decide_eq_true_eq] at hb
        constructor
        · intro hf
          exact absurd hf (by simp)
        · rintro ⟨-, h0⟩
          exact absurd (by omega) hb
  have hzero : ∀ n : Nat, atoi (print_u n) = some 0 ↔ n = 0 := by
    intro n
    unfold atoi
    rw [atoi_value_print_u]
    split
    · simp only [Option.some.injEq]
      omega
    · constructor
      · intro hf
        exact absurd hf (by simp)
      · intro h0
        subst h0
        rename_i hr
        exact absurd (by constructor <;> omega) hr
  refine ⟨part1, ?_, ?_, by decide⟩
  · intro n hno
    rw [part1 (print_u n) hno, hzero]
  · intro n hle hno hvid
    rw [format_supported_no_rtpmap builtin offer (print_u n) hno,
      atoi_print_u n (by omega)]
    have hb : in_default_pt_bound (n : Int) = true := by
      simp only [in_default_pt_bound, hn, Bool.and_eq_true, decide_eq_true_eq]
      omega
    simp only [hb, if_true, Int.toNat_ofNat, hvid]
    exact static_accept_builtin_video n (by omega)

end KmsSdp
